import Mathlib

/-!
Verification of the batch text-rewriter scripts of this repository.

The scripts are single-pass batch editors over the text of one file: they apply an
ordered list of (pattern, replacement) pairs via re.sub and conditionally
write the result back.  Every regex pattern used by the migrate_* scripts is a
fully escaped literal, so each re.sub is literal leftmost non-overlapping
replace-all; the embedding models documents as List Char and replacement as
the function subAll below.  The blank-line cleanup re.sub uses the genuine
regex pattern of three newlines separated by whitespace; cleanupSub below
implements exactly the leftmost greedy semantics of that pattern.  All recursive
definitions take an explicit fuel argument (always called with fuel at least
the length of the remaining input) so that they are structural and hence
kernel-computable.
-/

/-- Whitespace test used both for Python str.strip and for the regex class
backslash-s on str patterns (ASCII whitespace plus the Unicode space
characters Python treats as whitespace). -/
def pyIsSpace (c : Char) : Bool :=
  let n := c.toNat
  (9 ≤ n && n ≤ 13) || n = 32 || (28 ≤ n && n ≤ 31) || n = 133 || n = 160 ||
  n = 0x1680 || (0x2000 ≤ n && n ≤ 0x200a) || n = 0x2028 || n = 0x2029 ||
  n = 0x202f || n = 0x205f || n = 0x3000

/-- Fuelled literal replace-all: leftmost, non-overlapping, as re.sub performs
with a fully escaped literal pattern.  Returns the rewritten text and the
number of occurrences replaced.  An empty pattern never fires (the scripts
never use one). -/
def subAllF (p r : List Char) : Nat → List Char → List Char × Nat
  | 0, s => (s, 0)
  | fuel + 1, s =>
    match s with
    | [] => ([], 0)
    | c :: t =>
      if p ≠ [] ∧ p.isPrefixOf (c :: t) then
        let a := subAllF p r fuel ((c :: t).drop p.length)
        (r ++ a.1, a.2 + 1)
      else
        let a := subAllF p r fuel t
        (c :: a.1, a.2)

/-- Literal replace-all of pattern p by replacement r in s, with the number of
occurrences replaced (re.sub with an escaped-literal pattern). -/
def subAll (p r s : List Char) : List Char × Nat :=
  subAllF p r s.length s

/-- Number of non-overlapping occurrences of literal p in s, as computed by
len(re.findall(literal, s)). -/
def countSub (p s : List Char) : Nat :=
  (subAll p [] s).2

/-- The Python substring test `p in s` for strings. -/
def containsSub (p : List Char) : List Char → Bool
  | [] => p.isEmpty
  | c :: t => p.isPrefixOf (c :: t) || containsSub p t

/-- p occurs as a contiguous substring of s. -/
def Occ (p s : List Char) : Prop :=
  ∃ a b, s = a ++ p ++ b

/-- The rewrite engine of the migrate_* scripts: the loop
`for old, new in replacements: content = re.sub(old, new, content)`,
instrumented with the total number of occurrences replaced. -/
def applyRules : List Char → List (List Char × List Char) → List Char × Nat
  | s, [] => (s, 0)
  | s, pr :: rest =>
    let a := subAll pr.1 pr.2 s
    let b := applyRules a.1 rest
    (b.1, a.2 + b.2)

/-- Overlap conditions on a pattern p against a replacement text r under which
replacing by r can never create a new occurrence of p: p is nonempty, p does
not occur in r, no nonempty proper prefix of p is a suffix of r, no proper
suffix of p is a prefix of r, and r is not a proper prefix of a suffix of p. -/
def patOK (p r : List Char) : Bool :=
  (decide (p ≠ [])) && !(containsSub p r) &&
  ((List.range p.length).all fun j =>
    (decide (j = 0)) ||
    (!((p.drop j).isPrefixOf r) && !((p.take j).isSuffixOf r) &&
     !(r.isPrefixOf (p.drop j))))

/-- A rule list is non-recreating when every pattern of the list satisfies
patOK against every replacement of the list. -/
def rulesOK (rules : List (List Char × List Char)) : Bool :=
  rules.all fun a => rules.all fun b => patOK a.1 b.2

/-- Leading-whitespace run of a line (regex caret-backslash-s-star). -/
def wsTake (s : List Char) : List Char :=
  s.takeWhile pyIsSpace

/-- Number of newline characters in the whitespace run starting at s. -/
def runNl (s : List Char) : Nat :=
  (wsTake s).count '\n'

/-- Length of the span from the start of s through the last newline of the
whitespace run starting at s: this is exactly the greedy match length of the
blank-line cleanup regex when it fires at the head of s. -/
def nlSpanLen (s : List Char) : Nat :=
  (wsTake s).length - ((wsTake s).reverse.takeWhile (fun c => !(c = '\n'))).length

/-- Fuelled engine of `re.sub(newline ws* newline ws* newline, two newlines, s)`:
the pattern matches at a position iff the character there is a newline and the
whitespace run from it contains at least three newlines; the greedy match
extends through the last newline of that run and is replaced by two newlines,
scanning resuming after the match. -/
def cleanupF : Nat → List Char → List Char × Nat
  | 0, s => (s, 0)
  | fuel + 1, s =>
    match s with
    | [] => ([], 0)
    | c :: t =>
      if c = '\n' ∧ 3 ≤ runNl (c :: t) then
        let a := cleanupF fuel ((c :: t).drop (nlSpanLen (c :: t)))
        ('\n' :: '\n' :: a.1, a.2 + 1)
      else
        let a := cleanupF fuel t
        (c :: a.1, a.2)

/-- The blank-line cleanup re.sub of the sql migration functions, with the
number of replacements performed. -/
def cleanupSub (s : List Char) : List Char × Nat :=
  cleanupF s.length s

/-- True iff the blank-line cleanup pattern matches somewhere in s. -/
def hasTrig : List Char → Bool
  | [] => false
  | c :: t => ((c = '\n') && decide (3 ≤ runNl (c :: t))) || hasTrig t
/-- Rules of migrate_context_cache in migrate_console_to_logger.py: each regex is a fully escaped literal, so each pair is (literal pattern, replacement). -/
def ctxRules : List (List Char × List Char) := [
  ("console.log(\x60[ContextCache] Invalidation persistante par tags: $\x7btags.join(\x27, \x27)\x7d\x60);".data,
   "logger.info(\x27Invalidation persistante par tags\x27, \x7b\n      metadata: \x7b\n        service: \x27ContextCacheService\x27,\n        operation: \x27invalidateFromPersistentCacheByTags\x27,\n        tags: tags.join(\x27, \x27)\n      \x7d\n    \x7d);".data),
  ("console.log(\x60[ContextCache] Prewarming $\x7bentityType\x7d avec filtres:\x60, filters);".data,
   "logger.info(\x27Prewarming avec filtres\x27, \x7b\n      metadata: \x7b\n        service: \x27ContextCacheService\x27,\n        operation: \x27prewarmEntityType\x27,\n        entityType,\n        filters: JSON.stringify(filters)\n      \x7d\n    \x7d);".data),
  ("console.log(\x60[ContextCache] Prewarming $\x7bentityType\x7d terminé: $\x7blimit\x7d contextes générés\x60);".data,
   "logger.info(\x27Prewarming terminé\x27, \x7b\n      metadata: \x7b\n        service: \x27ContextCacheService\x27,\n        operation: \x27prewarmEntityType\x27,\n        entityType,\n        contextsGenerated: limit\n      \x7d\n    \x7d);".data),
  ("console.log(\x60[ContextCache] Préchargement pattern: $\x7bpattern\x7d\x60);".data,
   "logger.info(\x27Préchargement pattern\x27, \x7b\n      metadata: \x7b\n        service: \x27ContextCacheService\x27,\n        operation: \x27preloadContextForPattern\x27,\n        pattern\n      \x7d\n    \x7d);".data),
  ("console.log(\x60[ContextCache] Invalidation cascade pour $\x7bentityType\x7d liée à $\x7bentityId\x7d\x60);".data,
   "logger.info(\x27Invalidation cascade\x27, \x7b\n      metadata: \x7b\n        service: \x27ContextCacheService\x27,\n        operation: \x27invalidateRelatedEntities\x27,\n        entityType,\n        relatedEntityId: entityId\n      \x7d\n    \x7d);".data),
  ("console.log(\x27[ContextCache] Prewarming déjà en cours d\\\x27exécution\x27);".data,
   "logger.info(\x27Prewarming déjà en cours\x27, \x7b\n      metadata: \x7b\n        service: \x27ContextCacheService\x27,\n        operation: \x27startIntelligentPrewarming\x27\n      \x7d\n    \x7d);".data),
  ("console.log(\x27[ContextCache] 🔥 Système de prewarming intelligent démarré avec succès\x27);".data,
   "logger.info(\x27Système de prewarming intelligent démarré\x27, \x7b\n      metadata: \x7b\n        service: \x27ContextCacheService\x27,\n        operation: \x27startIntelligentPrewarming\x27\n      \x7d\n    \x7d);".data),
  ("console.log(\x27[ContextCache] Système de prewarming arrêté\x27);".data,
   "logger.info(\x27Système de prewarming arrêté\x27, \x7b\n      metadata: \x7b\n        service: \x27ContextCacheService\x27,\n        operation: \x27stopIntelligentPrewarming\x27\n      \x7d\n    \x7d);".data),
  ("console.log(\x27[ContextCache] Prewarming reporté - hors période optimale\x27);".data,
   "logger.info(\x27Prewarming reporté - hors période optimale\x27, \x7b\n      metadata: \x7b\n        service: \x27ContextCacheService\x27,\n        operation: \x27executeIntelligentPrewarming\x27\n      \x7d\n    \x7d);".data),
  ("console.log(\x60[ContextCache] 🚀 Début prewarming intelligent (période de pointe: $\x7bisPeakHours\x7d)\x60);".data,
   "logger.info(\x27Début prewarming intelligent\x27, \x7b\n      metadata: \x7b\n        service: \x27ContextCacheService\x27,\n        operation: \x27executeIntelligentPrewarming\x27,\n        isPeakHours\n      \x7d\n    \x7d);".data),
  ("console.log(\x60[ContextCache] ✅ Prewarming terminé en $\x7bDate.now() - startTime\x7dms - $\x7bprewarmingResults.contextsPrewarmed\x7d contextes\x60);".data,
   "logger.info(\x27Prewarming terminé\x27, \x7b\n      metadata: \x7b\n        service: \x27ContextCacheService\x27,\n        operation: \x27executeIntelligentPrewarming\x27,\n        durationMs: Date.now() - startTime,\n        contextsPrewarmed: prewarmingResults.contextsPrewarmed\n      \x7d\n    \x7d);".data),
  ("console.error(\x60[ContextCache] ❌ Erreur prewarming intelligent:\x60, error);".data,
   "logger.error(\x27Erreur prewarming intelligent\x27, \x7b\n      metadata: \x7b\n        service: \x27ContextCacheService\x27,\n        operation: \x27executeIntelligentPrewarming\x27,\n        error: error instanceof Error ? error.message : String(error),\n        stack: error instanceof Error ? error.stack : undefined\n      \x7d\n    \x7d);".data),
  ("console.error(\x60[ContextCache] Erreur prewarming $\x7bentityType\x7d:\x60, error);".data,
   "logger.error(\x27Erreur prewarming\x27, \x7b\n      metadata: \x7b\n        service: \x27ContextCacheService\x27,\n        operation: \x27executePrewarmingStrategy\x27,\n        entityType,\n        error: error instanceof Error ? error.message : String(error),\n        stack: error instanceof Error ? error.stack : undefined\n      \x7d\n    \x7d);".data),
  ("console.log(\x27[ContextCache] 🔄 Prewarming initial au démarrage...\x27);".data,
   "logger.info(\x27Prewarming initial au démarrage\x27, \x7b\n      metadata: \x7b\n        service: \x27ContextCacheService\x27,\n        operation: \x27executeInitialPrewarming\x27\n      \x7d\n    \x7d);".data),
  ("console.log(\x27[ContextCache] ✅ Prewarming initial terminé\x27);".data,
   "logger.info(\x27Prewarming initial terminé\x27, \x7b\n      metadata: \x7b\n        service: \x27ContextCacheService\x27,\n        operation: \x27executeInitialPrewarming\x27\n      \x7d\n    \x7d);".data),
  ("console.log(\x60[ContextCache] 📊 Monitoring: Hit rate prewarming: $\x7b(prewarmingHitRate * 100).toFixed(1)\x7d%, Utilisation: $\x7b(cacheUtilization * 100).toFixed(1)\x7d%\x60);".data,
   "logger.info(\x27Monitoring prewarming\x27, \x7b\n      metadata: \x7b\n        service: \x27ContextCacheService\x27,\n        operation: \x27monitorPrewarmingEffectiveness\x27,\n        prewarmingHitRate: (prewarmingHitRate * 100).toFixed(1) + \x27%\x27,\n        cacheUtilization: (cacheUtilization * 100).toFixed(1) + \x27%\x27\n      \x7d\n    \x7d);".data),
  ("console.warn(\x27[ContextCache] ⚠️ Efficacité prewarming faible - révision de stratégie recommandée\x27);".data,
   "logger.warn(\x27Efficacité prewarming faible - révision recommandée\x27, \x7b\n      metadata: \x7b\n        service: \x27ContextCacheService\x27,\n        operation: \x27monitorPrewarmingEffectiveness\x27\n      \x7d\n    \x7d);".data),
  ("console.log(\x27[ContextCache] Intégration PredictiveEngine activée pour preloading intelligent\x27);".data,
   "logger.info(\x27Intégration PredictiveEngine activée\x27, \x7b\n      metadata: \x7b\n        service: \x27ContextCacheService\x27,\n        operation: \x27integratePredictiveEngine\x27\n      \x7d\n    \x7d);".data),
  ("console.log(\x27[ContextCache] Preloading prédictif désactivé\x27);".data,
   "logger.info(\x27Preloading prédictif désactivé\x27, \x7b\n      metadata: \x7b\n        service: \x27ContextCacheService\x27,\n        operation: \x27preloadContextByPrediction\x27\n      \x7d\n    \x7d);".data),
  ("console.log(\x60[ContextCache] Preloading prédictif: $\x7bentityType\x7d:$\x7bentityId\x7d (priorité: $\x7bpriority\x7d)\x60);".data,
   "logger.info(\x27Preloading prédictif démarré\x27, \x7b\n      metadata: \x7b\n        service: \x27ContextCacheService\x27,\n        operation: \x27preloadContextByPrediction\x27,\n        entityType,\n        entityId,\n        priority\n      \x7d\n    \x7d);".data),
  ("console.log(\x60[ContextCache] Contexte déjà en cache: $\x7bentityType\x7d:$\x7bentityId\x7d\x60);".data,
   "logger.info(\x27Contexte déjà en cache\x27, \x7b\n      metadata: \x7b\n        service: \x27ContextCacheService\x27,\n        operation: \x27preloadContextByPrediction\x27,\n        entityType,\n        entityId\n      \x7d\n    \x7d);".data),
  ("console.log(\x60[ContextCache] Preloading prédictif complété: $\x7bentityType\x7d:$\x7bentityId\x7d en $\x7bduration\x7dms\x60);".data,
   "logger.info(\x27Preloading prédictif complété\x27, \x7b\n      metadata: \x7b\n        service: \x27ContextCacheService\x27,\n        operation: \x27preloadContextByPrediction\x27,\n        entityType,\n        entityId,\n        durationMs: duration\n      \x7d\n    \x7d);".data),
  ("console.error(\x60[ContextCache] Erreur preloading prédictif $\x7bentityType\x7d:$\x7bentityId\x7d:\x60, error);".data,
   "logger.error(\x27Erreur preloading prédictif\x27, \x7b\n      metadata: \x7b\n        service: \x27ContextCacheService\x27,\n        operation: \x27preloadContextByPrediction\x27,\n        entityType,\n        entityId,\n        error: error instanceof Error ? error.message : String(error),\n        stack: error instanceof Error ? error.stack : undefined\n      \x7d\n    \x7d);".data),
  ("console.log(\x27[ContextCache] PredictiveEngine non intégré\x27);".data,
   "logger.info(\x27PredictiveEngine non intégré\x27, \x7b\n      metadata: \x7b\n        service: \x27ContextCacheService\x27,\n        operation: \x27integrateHeatMapData\x27\n      \x7d\n    \x7d);".data),
  ("console.log(\x27[ContextCache] Intégration heat-map pour optimisation cache...\x27);".data,
   "logger.info(\x27Intégration heat-map pour optimisation cache\x27, \x7b\n      metadata: \x7b\n        service: \x27ContextCacheService\x27,\n        operation: \x27integrateHeatMapData\x27\n      \x7d\n    \x7d);".data),
  ("console.log(\x27[ContextCache] Intégration heat-map terminée\x27);".data,
   "logger.info(\x27Intégration heat-map terminée\x27, \x7b\n      metadata: \x7b\n        service: \x27ContextCacheService\x27,\n        operation: \x27integrateHeatMapData\x27\n      \x7d\n    \x7d);".data),
  ("console.error(\x27[ContextCache] Erreur intégration heat-map:\x27, error);".data,
   "logger.error(\x27Erreur intégration heat-map\x27, \x7b\n      metadata: \x7b\n        service: \x27ContextCacheService\x27,\n        operation: \x27integrateHeatMapData\x27,\n        error: error instanceof Error ? error.message : String(error),\n        stack: error instanceof Error ? error.stack : undefined\n      \x7d\n    \x7d);".data),
  ("console.log(\x27[ContextCache] Optimisation LRU avec scoring prédictif...\x27);".data,
   "logger.info(\x27Optimisation LRU avec scoring prédictif\x27, \x7b\n      metadata: \x7b\n        service: \x27ContextCacheService\x27,\n        operation: \x27optimizeLRUWithPredictiveScoring\x27\n      \x7d\n    \x7d);".data),
  ("console.log(\x60[ContextCache] Éviction prédictive: $\x7bitem.key.substring(0, 40)\x7d... (score: $\x7bitem.predictiveScore\x7d)\x60);".data,
   "logger.info(\x27Éviction prédictive\x27, \x7b\n      metadata: \x7b\n        service: \x27ContextCacheService\x27,\n        operation: \x27optimizeLRUWithPredictiveScoring\x27,\n        cacheKey: item.key.substring(0, 40) + \x27...\x27,\n        predictiveScore: item.predictiveScore\n      \x7d\n    \x7d);".data),
  ("console.log(\x60[ContextCache] Optimisation LRU terminée: $\x7bevictedCount\x7d entrées évincées\x60);".data,
   "logger.info(\x27Optimisation LRU terminée\x27, \x7b\n      metadata: \x7b\n        service: \x27ContextCacheService\x27,\n        operation: \x27optimizeLRUWithPredictiveScoring\x27,\n        evictedCount\n      \x7d\n    \x7d);".data),
  ("console.error(\x27[ContextCache] Erreur optimisation LRU prédictive:\x27, error);".data,
   "logger.error(\x27Erreur optimisation LRU prédictive\x27, \x7b\n      metadata: \x7b\n        service: \x27ContextCacheService\x27,\n        operation: \x27optimizeLRUWithPredictiveScoring\x27,\n        error: error instanceof Error ? error.message : String(error),\n        stack: error instanceof Error ? error.stack : undefined\n      \x7d\n    \x7d);".data),
  ("console.log(\x60[ContextCache] Preloading $\x7bhotEntities.length\x7d entités chaudes...\x60);".data,
   "logger.info(\x27Preloading entités chaudes\x27, \x7b\n      metadata: \x7b\n        service: \x27ContextCacheService\x27,\n        operation: \x27preloadHotEntities\x27,\n        hotEntitiesCount: hotEntities.length\n      \x7d\n    \x7d);".data),
  ("console.warn(\x60[ContextCache] Erreur preloading entité chaude $\x7bentity.entityType\x7d:$\x7bentity.entityId\x7d:\x60, error);".data,
   "logger.warn(\x27Erreur preloading entité chaude\x27, \x7b\n      metadata: \x7b\n        service: \x27ContextCacheService\x27,\n        operation: \x27preloadHotEntities\x27,\n        entityType: entity.entityType,\n        entityId: entity.entityId,\n        error: error instanceof Error ? error.message : String(error),\n        stack: error instanceof Error ? error.stack : undefined\n      \x7d\n    \x7d);".data),
  ("console.log(\x60[ContextCache] Éviction entité froide: $\x7bentityKey\x7d\x60);".data,
   "logger.info(\x27Éviction entité froide\x27, \x7b\n      metadata: \x7b\n        service: \x27ContextCacheService\x27,\n        operation: \x27evictColdEntities\x27,\n        entityKey\n      \x7d\n    \x7d);".data),
  ("console.log(\x60[ContextCache] $\x7bevictedCount\x7d entités froides évincées\x60);".data,
   "logger.info(\x27Entités froides évincées\x27, \x7b\n      metadata: \x7b\n        service: \x27ContextCacheService\x27,\n        operation: \x27evictColdEntities\x27,\n        evictedCount\n      \x7d\n    \x7d);".data),
  ("console.log(\x27[ContextCache] Mode preloading agressif - heures de pointe\x27);".data,
   "logger.info(\x27Mode preloading agressif - heures de pointe\x27, \x7b\n      metadata: \x7b\n        service: \x27ContextCacheService\x27,\n        operation: \x27calculatePreloadingBudget\x27\n      \x7d\n    \x7d);".data),
  ("console.log(\x27[ContextCache] Mode preloading modéré - horaires business\x27);".data,
   "logger.info(\x27Mode preloading modéré - horaires business\x27, \x7b\n      metadata: \x7b\n        service: \x27ContextCacheService\x27,\n        operation: \x27calculatePreloadingBudget\x27\n      \x7d\n    \x7d);".data),
  ("console.log(\x27[ContextCache] Mode preloading conservateur - hors horaires\x27);".data,
   "logger.info(\x27Mode preloading conservateur - hors horaires\x27, \x7b\n      metadata: \x7b\n        service: \x27ContextCacheService\x27,\n        operation: \x27calculatePreloadingBudget\x27\n      \x7d\n    \x7d);".data),
  ("console.warn(\x27[ContextCache] Erreur récupération score prédictif:\x27, error);".data,
   "logger.warn(\x27Erreur récupération score prédictif\x27, \x7b\n      metadata: \x7b\n        service: \x27ContextCacheService\x27,\n        operation: \x27getPredictiveScore\x27,\n        error: error instanceof Error ? error.message : String(error),\n        stack: error instanceof Error ? error.stack : undefined\n      \x7d\n    \x7d);".data),
  ("console.log(\x60[ContextCache] Contexte prédictif stocké: $\x7bcacheKey\x7d (TTL: $\x7bttlHours\x7dh, priorité: $\x7bpriority\x7d)\x60);".data,
   "logger.info(\x27Contexte prédictif stocké\x27, \x7b\n      metadata: \x7b\n        service: \x27ContextCacheService\x27,\n        operation: \x27storePredictiveContext\x27,\n        cacheKey,\n        ttlHours,\n        priority\n      \x7d\n    \x7d);".data),
  ("console.log(\x27[ContextCache] Cycles prédictifs automatiques démarrés\x27);".data,
   "logger.info(\x27Cycles prédictifs automatiques démarrés\x27, \x7b\n      metadata: \x7b\n        service: \x27ContextCacheService\x27,\n        operation: \x27startPredictiveCycles\x27\n      \x7d\n    \x7d);".data),
  ("console.log(\x27[ContextCache] Cycle preloading prédictif...\x27);".data,
   "logger.info(\x27Cycle preloading prédictif démarré\x27, \x7b\n      metadata: \x7b\n        service: \x27ContextCacheService\x27,\n        operation: \x27startPredictiveCycles\x27\n      \x7d\n    \x7d);".data),
  ("console.log(\x60[ContextCache] Cycle prédictif terminé: $\x7bviablePredictions.length\x7d contextes preloadés\x60);".data,
   "logger.info(\x27Cycle prédictif terminé\x27, \x7b\n      metadata: \x7b\n        service: \x27ContextCacheService\x27,\n        operation: \x27startPredictiveCycles\x27,\n        contextsPreloaded: viablePredictions.length\n      \x7d\n    \x7d);".data),
  ("console.error(\x27[ContextCache] Erreur cycle preloading prédictif:\x27, error);".data,
   "logger.error(\x27Erreur cycle preloading prédictif\x27, \x7b\n      metadata: \x7b\n        service: \x27ContextCacheService\x27,\n        operation: \x27startPredictiveCycles\x27,\n        error: error instanceof Error ? error.message : String(error),\n        stack: error instanceof Error ? error.stack : undefined\n      \x7d\n    \x7d);".data),
  ("console.log(\x60[ContextCache] Preloading prédictif $\x7benabled ? \x27ACTIVÉ\x27 : \x27DÉSACTIVÉ\x27\x7d\x60);".data,
   "logger.info(\x27État preloading prédictif modifié\x27, \x7b\n      metadata: \x7b\n        service: \x27ContextCacheService\x27,\n        operation: \x27togglePredictivePreloading\x27,\n        enabled\n      \x7d\n    \x7d);".data)
]

/-- Rules of migrate_email_service in migrate_remaining_services.py (replacements list followed by the individual re.sub calls, in application order). -/
def emailRules : List (List Char × List Char) := [
  ("console.error(\x27[HandlebarsTemplateService] Erreur lors du rendu du template:\x27, error);".data,
   "logger.error(\x27Erreur rendu template\x27, \x7b\n        metadata: \x7b\n          service: \x27EmailService\x27,\n          operation: \x27renderTemplate\x27,\n          error: error instanceof Error ? error.message : String(error),\n          stack: error instanceof Error ? error.stack : undefined\n        \x7d\n      \x7d);".data),
  ("console.error(\x27Template content:\x27, templateContent.substring(0, 200) + \x27...\x27);".data,
   "logger.error(\x27Template content preview\x27, \x7b\n        metadata: \x7b\n          service: \x27EmailService\x27,\n          operation: \x27renderTemplate\x27,\n          templatePreview: templateContent.substring(0, 200) + \x27...\x27\n        \x7d\n      \x7d);".data),
  ("console.error(\x27Data provided:\x27, JSON.stringify(data, null, 2));".data,
   "logger.error(\x27Template data provided\x27, \x7b\n        metadata: \x7b\n          service: \x27EmailService\x27,\n          operation: \x27renderTemplate\x27,\n          data: JSON.stringify(data, null, 2)\n        \x7d\n      \x7d);".data),
  ("console.warn(\x27[HandlebarsTemplateService] Utilisation du fallback naïf\x27);".data,
   "logger.warn(\x27Utilisation du fallback naïf\x27, \x7b\n        metadata: \x7b\n          service: \x27EmailService\x27,\n          operation: \x27renderTemplate\x27\n        \x7d\n      \x7d);".data),
  ("console.log(\x27[MockEmailService] Service email MOCK initialisé pour le développement\x27);".data,
   "logger.info(\x27Service email MOCK initialisé\x27, \x7b\n        metadata: \x7b\n          service: \x27EmailService\x27,\n          operation: \x27constructor\x27\n        \x7d\n      \x7d);".data),
  ("console.log(\x27\\n=== [MockEmailService] INVITATION FOURNISSEUR (Handlebars) ===\x27);".data,
   "logger.info(\x27Envoi invitation fournisseur\x27, \x7b\n        metadata: \x7b\n          service: \x27EmailService\x27,\n          operation: \x27sendSupplierInvitation\x27,\n          templateEngine: \x27Handlebars\x27\n        \x7d\n      \x7d);".data),
  ("console.log(\x27📧 Destinataire:\x27, data.contactEmail, \x60($\x7bdata.contactName\x7d)\x60);".data,
   "logger.info(\x27Destinataire\x27, \x7b\n        metadata: \x7b\n          service: \x27EmailService\x27,\n          operation: \x27sendSupplierInvitation\x27,\n          recipient: data.contactEmail,\n          contactName: data.contactName\n        \x7d\n      \x7d);".data),
  ("console.log(\x27📧 Sujet:\x27, subject);".data,
   "logger.info(\x27Sujet email\x27, \x7b\n        metadata: \x7b\n          service: \x27EmailService\x27,\n          operation: \x27sendSupplierInvitation\x27,\n          subject\n        \x7d\n      \x7d);".data),
  ("console.log(\x27📧 Fournisseur:\x27, data.supplierName);".data,
   "logger.info(\x27Fournisseur\x27, \x7b\n        metadata: \x7b\n          service: \x27EmailService\x27,\n          operation: \x27sendSupplierInvitation\x27,\n          supplierName: data.supplierName\n        \x7d\n      \x7d);".data),
  ("console.log(\x27📧 AO:\x27, data.aoReference);".data,
   "logger.info(\x27AO référence\x27, \x7b\n        metadata: \x7b\n          service: \x27EmailService\x27,\n          operation: \x27sendSupplierInvitation\x27,\n          aoReference: data.aoReference\n        \x7d\n      \x7d);".data),
  ("console.log(\x27📧 Lot:\x27, data.lotDescription);".data,
   "logger.info(\x27Lot description\x27, \x7b\n        metadata: \x7b\n          service: \x27EmailService\x27,\n          operation: \x27sendSupplierInvitation\x27,\n          lotDescription: data.lotDescription\n        \x7d\n      \x7d);".data),
  ("console.log(\x27📧 URL d\\\x27accès:\x27, data.accessUrl);".data,
   "logger.info(\x27URL accès\x27, \x7b\n        metadata: \x7b\n          service: \x27EmailService\x27,\n          operation: \x27sendSupplierInvitation\x27,\n          accessUrl: data.accessUrl\n        \x7d\n      \x7d);".data),
  ("console.log(\x27📧 Expiration:\x27, data.expirationDate);".data,
   "logger.info(\x27Date expiration\x27, \x7b\n        metadata: \x7b\n          service: \x27EmailService\x27,\n          operation: \x27sendSupplierInvitation\x27,\n          expirationDate: data.expirationDate\n        \x7d\n      \x7d);".data),
  ("console.log(\x27📧 Instructions:\x27, data.instructions);".data,
   "logger.info(\x27Instructions incluses\x27, \x7b\n        metadata: \x7b\n          service: \x27EmailService\x27,\n          operation: \x27sendSupplierInvitation\x27,\n          instructions: data.instructions\n        \x7d\n      \x7d);".data),
  ("console.log(\x27📧 ✅ Instructions incluses dans le rendu conditionnel\x27);".data,
   "logger.info(\x27Instructions incluses dans rendu\x27, \x7b\n        metadata: \x7b\n          service: \x27EmailService\x27,\n          operation: \x27sendSupplierInvitation\x27,\n          conditionalRender: true\n        \x7d\n      \x7d);".data),
  ("console.log(\x27📧 ❌ Pas d\\\x27instructions - bloc conditionnel masqué\x27);".data,
   "logger.info(\x27Pas d\\\x27instructions - bloc masqué\x27, \x7b\n        metadata: \x7b\n          service: \x27EmailService\x27,\n          operation: \x27sendSupplierInvitation\x27,\n          conditionalRender: false\n        \x7d\n      \x7d);".data),
  ("console.log(\x27📧 Template HTML rendu avec Handlebars (\x27, htmlContent.length, \x27caractères)\x27);".data,
   "logger.info(\x27Template HTML rendu\x27, \x7b\n        metadata: \x7b\n          service: \x27EmailService\x27,\n          operation: \x27sendSupplierInvitation\x27,\n          htmlLength: htmlContent.length,\n          templateEngine: \x27Handlebars\x27\n        \x7d\n      \x7d);".data),
  ("console.log(\x27📧 Template TEXT rendu avec Handlebars (\x27, textContent.length, \x27caractères)\x27);".data,
   "logger.info(\x27Template TEXT rendu\x27, \x7b\n        metadata: \x7b\n          service: \x27EmailService\x27,\n          operation: \x27sendSupplierInvitation\x27,\n          textLength: textContent.length,\n          templateEngine: \x27Handlebars\x27\n        \x7d\n      \x7d);".data),
  ("console.log(\x27📧 APERÇU RENDU HTML:\x27);".data,
   "logger.info(\x27Aperçu rendu HTML\x27, \x7b\n        metadata: \x7b\n          service: \x27EmailService\x27,\n          operation: \x27sendSupplierInvitation\x27\n        \x7d\n      \x7d);".data),
  ("console.log(htmlPreview.substring(0, 500) + \x27...\x27);".data,
   "logger.info(\x27HTML preview\x27, \x7b\n        metadata: \x7b\n          service: \x27EmailService\x27,\n          operation: \x27sendSupplierInvitation\x27,\n          htmlPreview: htmlPreview.substring(0, 500) + \x27...\x27\n        \x7d\n      \x7d);".data),
  ("console.log(\x27=== FIN INVITATION FOURNISSEUR ===\x27);".data,
   "logger.info(\x27Fin invitation fournisseur\x27, \x7b\n      metadata: \x7b\n        service: \x27EmailService\x27,\n        operation: \x27sendSupplierInvitation\x27\n      \x7d\n    \x7d);".data),
  ("console.log(\x60[MockEmailService] 📩 SESSION REMINDER FOURNISSEUR\x60);".data,
   "logger.info(\x27Session reminder fournisseur\x27, \x7b\n      metadata: \x7b\n        service: \x27EmailService\x27,\n        operation: \x27sendSessionReminder\x27\n      \x7d\n    \x7d);".data),
  ("console.log(\x60[MockEmailService] 📄 DOCUMENT RECEIVED CONFIRMATION\x60);".data,
   "logger.info(\x27Document received confirmation\x27, \x7b\n      metadata: \x7b\n        service: \x27EmailService\x27,\n        operation: \x27sendDocumentReceived\x27\n      \x7d\n    \x7d);".data),
  ("console.log(\x60[SendGridEmailService] Email envoyé avec succès\x60);".data,
   "logger.info(\x27Email envoyé avec succès\x27, \x7b\n      metadata: \x7b\n        service: \x27EmailService\x27,\n        operation: \x27sendSupplierInvitation\x27,\n        provider: \x27SendGrid\x27\n      \x7d\n    \x7d);".data),
  ("console.log(\x60[SendGridEmailService] Message ID: $\x7bmessageId\x7d\x60);".data,
   "logger.info(\x27Message ID\x27, \x7b\n      metadata: \x7b\n        service: \x27EmailService\x27,\n        operation: \x27sendSupplierInvitation\x27,\n        provider: \x27SendGrid\x27,\n        messageId\n      \x7d\n    \x7d);".data),
  ("console.error(\x60[SendGridEmailService] Erreur lors de l\x27envoi:\x60, error);".data,
   "logger.error(\x27Erreur envoi email\x27, \x7b\n      metadata: \x7b\n        service: \x27EmailService\x27,\n        operation: \x27sendSupplierInvitation\x27,\n        provider: \x27SendGrid\x27,\n        error: error instanceof Error ? error.message : String(error),\n        stack: error instanceof Error ? error.stack : undefined\n      \x7d\n    \x7d);".data),
  ("console.log(\x60[EmailService] Rappels programmés pour session $\x7bsession.id\x7d\x60);".data,
   "logger.info(\x27Rappels programmés\x27, \x7b\n      metadata: \x7b\n        service: \x27EmailService\x27,\n        operation: \x27scheduleSessionReminders\x27,\n        sessionId: session.id\n      \x7d\n    \x7d);".data)
]

/-- Rules of migrate_predictive_engine in migrate_remaining_services.py, in application order. -/
def predictiveRules : List (List Char × List Char) := [
  ("console.log(\x27[PredictiveEngine] Service initialisé avec preloading prédictif activé\x27);".data,
   "logger.info(\x27Service initialisé avec preloading prédictif\x27, \x7b\n      metadata: \x7b\n        service: \x27PredictiveEngineService\x27,\n        operation: \x27constructor\x27\n      \x7d\n    \x7d);".data),
  ("console.log(\x27[PredictiveEngine] Cache hit pour forecast revenue\x27);".data,
   "logger.info(\x27Cache hit\x27, \x7b\n      metadata: \x7b\n        service: \x27PredictiveEngineService\x27,\n        operation: \x27forecastRevenue\x27,\n        cacheHit: true\n      \x7d\n    \x7d);".data),
  ("console.log(\x27[PredictiveEngine] Calcul forecast revenue:\x27, params);".data,
   "logger.info(\x27Calcul forecast revenue\x27, \x7b\n      metadata: \x7b\n        service: \x27PredictiveEngineService\x27,\n        operation: \x27forecastRevenue\x27,\n        params\n      \x7d\n    \x7d);".data),
  ("console.log(\x27[PredictiveEngine] Aucune donnée historique trouvée\x27);".data,
   "logger.info(\x27Aucune donnée historique trouvée\x27, \x7b\n      metadata: \x7b\n        service: \x27PredictiveEngineService\x27,\n        operation: \x27forecastRevenue\x27\n      \x7d\n    \x7d);".data),
  ("console.log(\x27[PredictiveEngine] Forecast calculé:\x27, results.length, \x27prévisions\x27);".data,
   "logger.info(\x27Forecast calculé\x27, \x7b\n      metadata: \x7b\n        service: \x27PredictiveEngineService\x27,\n        operation: \x27forecastRevenue\x27,\n        forecastCount: results.length\n      \x7d\n    \x7d);".data),
  ("console.error(\x27[PredictiveEngine] Erreur calcul forecast revenue:\x27, error);".data,
   "logger.error(\x27Erreur calcul forecast revenue\x27, \x7b\n      metadata: \x7b\n        service: \x27PredictiveEngineService\x27,\n        operation: \x27forecastRevenue\x27,\n        error: error instanceof Error ? error.message : String(error),\n        stack: error instanceof Error ? error.stack : undefined\n      \x7d\n    \x7d);".data),
  ("console.log(\x27[PredictiveEngine] Cache hit pour project risks\x27);".data,
   "logger.info(\x27Cache hit\x27, \x7b\n      metadata: \x7b\n        service: \x27PredictiveEngineService\x27,\n        operation: \x27detectProjectRisks\x27,\n        cacheHit: true\n      \x7d\n    \x7d);".data),
  ("console.log(\x27[PredictiveEngine] Détection risques projets:\x27, params);".data,
   "logger.info(\x27Détection risques projets\x27, \x7b\n      metadata: \x7b\n        service: \x27PredictiveEngineService\x27,\n        operation: \x27detectProjectRisks\x27,\n        params\n      \x7d\n    \x7d);".data),
  ("console.log(\x27[PredictiveEngine] Risques détectés:\x27, results.length, \x27projets à risque\x27);".data,
   "logger.info(\x27Risques détectés\x27, \x7b\n      metadata: \x7b\n        service: \x27PredictiveEngineService\x27,\n        operation: \x27detectProjectRisks\x27,\n        risksCount: results.length\n      \x7d\n    \x7d);".data),
  ("console.error(\x27[PredictiveEngine] Erreur détection risques:\x27, error);".data,
   "logger.error(\x27Erreur détection risques\x27, \x7b\n      metadata: \x7b\n        service: \x27PredictiveEngineService\x27,\n        operation: \x27detectProjectRisks\x27,\n        error: error instanceof Error ? error.message : String(error),\n        stack: error instanceof Error ? error.stack : undefined\n      \x7d\n    \x7d);".data),
  ("console.log(\x27[PredictiveEngine] Cache hit pour recommendations\x27);".data,
   "logger.info(\x27Cache hit\x27, \x7b\n      metadata: \x7b\n        service: \x27PredictiveEngineService\x27,\n        operation: \x27generateBusinessRecommendations\x27,\n        cacheHit: true\n      \x7d\n    \x7d);".data),
  ("console.log(\x27[PredictiveEngine] Génération recommandations business:\x27, context);".data,
   "logger.info(\x27Génération recommandations business\x27, \x7b\n      metadata: \x7b\n        service: \x27PredictiveEngineService\x27,\n        operation: \x27generateBusinessRecommendations\x27,\n        context\n      \x7d\n    \x7d);".data),
  ("console.log(\x27[PredictiveEngine] Recommandations générées:\x27, filteredRecs.length, \x27actions\x27);".data,
   "logger.info(\x27Recommandations générées\x27, \x7b\n      metadata: \x7b\n        service: \x27PredictiveEngineService\x27,\n        operation: \x27generateBusinessRecommendations\x27,\n        recommendationsCount: filteredRecs.length\n      \x7d\n    \x7d);".data),
  ("console.error(\x27[PredictiveEngine] Erreur génération recommandations:\x27, error);".data,
   "logger.error(\x27Erreur génération recommandations\x27, \x7b\n      metadata: \x7b\n        service: \x27PredictiveEngineService\x27,\n        operation: \x27generateBusinessRecommendations\x27,\n        error: error instanceof Error ? error.message : String(error),\n        stack: error instanceof Error ? error.stack : undefined\n      \x7d\n    \x7d);".data),
  ("console.error(\x27[PredictiveEngine] Erreur récupération KPIs:\x27, error);".data,
   "logger.error(\x27Erreur récupération KPIs\x27, \x7b\n      metadata: \x7b\n        service: \x27PredictiveEngineService\x27,\n        operation: \x27getCurrentKPIs\x27,\n        error: error instanceof Error ? error.message : String(error),\n        stack: error instanceof Error ? error.stack : undefined\n      \x7d\n    \x7d);".data),
  ("console.error(\x27[PredictiveEngine] Erreur récupération benchmarks:\x27, error);".data,
   "logger.error(\x27Erreur récupération benchmarks\x27, \x7b\n      metadata: \x7b\n        service: \x27PredictiveEngineService\x27,\n        operation: \x27getIndustryBenchmarks\x27,\n        error: error instanceof Error ? error.message : String(error),\n        stack: error instanceof Error ? error.stack : undefined\n      \x7d\n    \x7d);".data),
  ("console.error(\x27[PredictiveEngine] Erreur recommandations planning:\x27, error);".data,
   "logger.error(\x27Erreur recommandations planning\x27, \x7b\n      metadata: \x7b\n        service: \x27PredictiveEngineService\x27,\n        operation: \x27generatePlanningRecommendations\x27,\n        error: error instanceof Error ? error.message : String(error),\n        stack: error instanceof Error ? error.stack : undefined\n      \x7d\n    \x7d);".data),
  ("console.log(\x60[PredictiveEngine] Cache hit pour $\x7bkey\x7d ($\x7bentry.hit_count\x7d hits)\x60);".data,
   "logger.info(\x27Cache hit\x27, \x7b\n      metadata: \x7b\n        service: \x27PredictiveEngineService\x27,\n        operation: \x27getCachedEntry\x27,\n        cacheKey: key,\n        hitCount: entry.hit_count\n      \x7d\n    \x7d);".data),
  ("console.log(\x60[PredictiveEngine] Cache set pour $\x7bkey\x7d (TTL: $\x7bttlMinutes\x7dmin)\x60);".data,
   "logger.info(\x27Cache set\x27, \x7b\n      metadata: \x7b\n        service: \x27PredictiveEngineService\x27,\n        operation: \x27setCacheEntry\x27,\n        cacheKey: key,\n        ttlMinutes\n      \x7d\n    \x7d);".data),
  ("console.log(\x60[PredictiveEngine] Cache cleanup: $\x7bdeletedCount\x7d entrées supprimées\x60);".data,
   "logger.info(\x27Cache cleanup\x27, \x7b\n      metadata: \x7b\n        service: \x27PredictiveEngineService\x27,\n        operation: \x27cleanupCache\x27,\n        deletedCount\n      \x7d\n    \x7d);".data),
  ("console.log(\x27[PredictiveEngine] Génération heat-map entités...\x27);".data,
   "logger.info(\x27Génération heat-map entités\x27, \x7b\n      metadata: \x7b\n        service: \x27PredictiveEngineService\x27,\n        operation: \x27generateEntityHeatMap\x27\n      \x7d\n    \x7d);".data),
  ("console.log(\x27[PredictiveEngine] Cache hit pour entity heatmap\x27);".data,
   "logger.info(\x27Cache hit pour entity heatmap\x27, \x7b\n      metadata: \x7b\n        service: \x27PredictiveEngineService\x27,\n        operation: \x27generateEntityHeatMap\x27,\n        cacheHit: true\n      \x7d\n    \x7d);".data),
  ("console.log(\x60[PredictiveEngine] Heat-map générée: $\x7bhotEntities.length\x7d entités chaudes, $\x7bcoldEntities.length\x7d froides\x60);".data,
   "logger.info(\x27Heat-map générée\x27, \x7b\n      metadata: \x7b\n        service: \x27PredictiveEngineService\x27,\n        operation: \x27generateEntityHeatMap\x27,\n        hotEntitiesCount: hotEntities.length,\n        coldEntitiesCount: coldEntities.length\n      \x7d\n    \x7d);".data),
  ("console.error(\x27[PredictiveEngine] Erreur génération heat-map:\x27, error);".data,
   "logger.error(\x27Erreur génération heat-map\x27, \x7b\n      metadata: \x7b\n        service: \x27PredictiveEngineService\x27,\n        operation: \x27generateEntityHeatMap\x27,\n        error: error instanceof Error ? error.message : String(error),\n        stack: error instanceof Error ? error.stack : undefined\n      \x7d\n    \x7d);".data),
  ("console.log(\x27[PredictiveEngine] Prédiction accès entités pour utilisateur:\x27, userId);".data,
   "logger.info(\x27Prédiction accès entités\x27, \x7b\n      metadata: \x7b\n        service: \x27PredictiveEngineService\x27,\n        operation: \x27predictNextEntityAccess\x27,\n        userId\n      \x7d\n    \x7d);".data),
  ("console.log(\x60[PredictiveEngine] $\x7bfilteredPredictions.length\x7d prédictions générées (confiance ≥$\x7bthis.PRELOADING_CONFIDENCE_THRESHOLD\x7d%)\x60);".data,
   "logger.info(\x27Prédictions générées\x27, \x7b\n      metadata: \x7b\n        service: \x27PredictiveEngineService\x27,\n        operation: \x27predictNextEntityAccess\x27,\n        predictionsCount: filteredPredictions.length,\n        confidenceThreshold: this.PRELOADING_CONFIDENCE_THRESHOLD\n      \x7d\n    \x7d);".data),
  ("console.error(\x27[PredictiveEngine] Erreur prédiction accès:\x27, error);".data,
   "logger.error(\x27Erreur prédiction accès\x27, \x7b\n      metadata: \x7b\n        service: \x27PredictiveEngineService\x27,\n        operation: \x27predictNextEntityAccess\x27,\n        error: error instanceof Error ? error.message : String(error),\n        stack: error instanceof Error ? error.stack : undefined\n      \x7d\n    \x7d);".data),
  ("console.log(\x27[PredictiveEngine] Preloading désactivé ou ContextCache non disponible\x27);".data,
   "logger.info(\x27Preloading désactivé ou ContextCache non disponible\x27, \x7b\n      metadata: \x7b\n        service: \x27PredictiveEngineService\x27,\n        operation: \x27schedulePreloadTasks\x27\n      \x7d\n    \x7d);".data),
  ("console.log(\x27[PredictiveEngine] Programmation tâches preloading pour\x27, predictions.length, \x27prédictions\x27);".data,
   "logger.info(\x27Programmation tâches preloading\x27, \x7b\n      metadata: \x7b\n        service: \x27PredictiveEngineService\x27,\n        operation: \x27schedulePreloadTasks\x27,\n        predictionsCount: predictions.length\n      \x7d\n    \x7d);".data),
  ("console.log(\x60[PredictiveEngine] $\x7bnewTasks.length\x7d nouvelles tâches programmées\x60);".data,
   "logger.info(\x27Nouvelles tâches programmées\x27, \x7b\n      metadata: \x7b\n        service: \x27PredictiveEngineService\x27,\n        operation: \x27schedulePreloadTasks\x27,\n        newTasksCount: newTasks.length\n      \x7d\n    \x7d);".data),
  ("console.error(\x27[PredictiveEngine] Erreur programmation tâches preloading:\x27, error);".data,
   "logger.error(\x27Erreur programmation tâches preloading\x27, \x7b\n      metadata: \x7b\n        service: \x27PredictiveEngineService\x27,\n        operation: \x27schedulePreloadTasks\x27,\n        error: error instanceof Error ? error.message : String(error),\n        stack: error instanceof Error ? error.stack : undefined\n      \x7d\n    \x7d);".data),
  ("console.log(\x27[PredictiveEngine] Intégration ContextCacheService activée pour preloading\x27);".data,
   "logger.info(\x27Intégration ContextCacheService activée\x27, \x7b\n      metadata: \x7b\n        service: \x27PredictiveEngineService\x27,\n        operation: \x27integrateWithContextCache\x27\n      \x7d\n    \x7d);".data)
]

/-- Rules of migrate_sql_engine in migrate_remaining_services.py (the replacements list); the trailing blank-line cleanup re.sub is modelled separately by cleanupSub. -/
def sqlRules : List (List Char × List Char) := [
  ("console.log(\x60[SQLEngine] Démarrage requête $\x7bqueryId\x7d pour utilisateur $\x7brequest.userId\x7d\x60);".data,
   "logger.info(\x27Démarrage requête\x27, \x7b\n      metadata: \x7b\n        service: \x27SQLEngineService\x27,\n        operation: \x27executeNaturalLanguageQuery\x27,\n        queryId,\n        userId: request.userId\n      \x7d\n    \x7d);".data),
  ("console.log(\x60[SQLEngine] ========================================\x60);".data,
   "".data),
  ("console.log(\x60[SQLEngine] SQL GÉNÉRÉ PAR L\x27IA (longueur: $\x7bgeneratedSQL.length\x7d chars):\x60);".data,
   "logger.info(\x27SQL généré par l\\\x27IA\x27, \x7b\n      metadata: \x7b\n        service: \x27SQLEngineService\x27,\n        operation: \x27executeNaturalLanguageQuery\x27,\n        sqlLength: generatedSQL.length,\n        queryId\n      \x7d\n    \x7d);".data),
  ("console.log(\x60[SQLEngine] $\x7bgeneratedSQL\x7d\x60);".data,
   "logger.info(\x27SQL query\x27, \x7b\n      metadata: \x7b\n        service: \x27SQLEngineService\x27,\n        operation: \x27executeNaturalLanguageQuery\x27,\n        sql: generatedSQL,\n        queryId\n      \x7d\n    \x7d);".data),
  ("console.error(\x60[SQLEngine] Erreur requête $\x7bqueryId\x7d:\x60, error);".data,
   "logger.error(\x27Erreur requête\x27, \x7b\n      metadata: \x7b\n        service: \x27SQLEngineService\x27,\n        operation: \x27executeNaturalLanguageQuery\x27,\n        queryId,\n        error: error instanceof Error ? error.message : String(error),\n        stack: error instanceof Error ? error.stack : undefined\n      \x7d\n    \x7d);".data),
  ("console.log(\x60[SQLEngine] Génération contexte intelligent pour $\x7brequest.userId\x7d ($\x7brequest.userRole\x7d)\x60);".data,
   "logger.info(\x27Génération contexte intelligent\x27, \x7b\n      metadata: \x7b\n        service: \x27SQLEngineService\x27,\n        operation: \x27generateIntelligentContext\x27,\n        userId: request.userId,\n        userRole: request.userRole\n      \x7d\n    \x7d);".data),
  ("console.error(\x60[SQLEngine] Erreur génération contexte intelligent:\x60, error);".data,
   "logger.error(\x27Erreur génération contexte intelligent\x27, \x7b\n      metadata: \x7b\n        service: \x27SQLEngineService\x27,\n        operation: \x27generateIntelligentContext\x27,\n        error: error instanceof Error ? error.message : String(error),\n        stack: error instanceof Error ? error.stack : undefined\n      \x7d\n    \x7d);".data),
  ("console.log(\x60[SQLSecurity] Validation SQL pour $\x7buserId\x7d ($\x7buserRole\x7d)\x60);".data,
   "logger.info(\x27Validation SQL\x27, \x7b\n      metadata: \x7b\n        service: \x27SQLEngineService\x27,\n        operation: \x27validateSQL\x27,\n        userId,\n        userRole\n      \x7d\n    \x7d);".data),
  ("console.log(\x60[SQLSecurity] SQL à valider: $\x7bsql.substring(0, 200)\x7d$\x7bsql.length > 200 ? \x27...\x27: \x27\x27\x7d\x60);".data,
   "logger.info(\x27SQL à valider\x27, \x7b\n      metadata: \x7b\n        service: \x27SQLEngineService\x27,\n        operation: \x27validateSQL\x27,\n        sqlPreview: sql.substring(0, 200) + (sql.length > 200 ? \x27...\x27 : \x27\x27)\n      \x7d\n    \x7d);".data),
  ("console.log(\x60[SQLSecurity] ✓ SQL nettoyé ($\x7bcleanedSQL.length\x7d chars): $\x7bcleanedSQL.substring(0, 150)\x7d$\x7bcleanedSQL.length > 150 ? \x27...\x27: \x27\x27\x7d\x60);".data,
   "logger.info(\x27SQL nettoyé\x27, \x7b\n      metadata: \x7b\n        service: \x27SQLEngineService\x27,\n        operation: \x27validateSQL\x27,\n        cleanedSQLLength: cleanedSQL.length,\n        cleanedSQLPreview: cleanedSQL.substring(0, 150) + (cleanedSQL.length > 150 ? \x27...\x27 : \x27\x27)\n      \x7d\n    \x7d);".data),
  ("console.warn(\x60[SQLSecurity] Erreur nettoyage SQL, utilisation SQL brut: $\x7bcleanError\x7d\x60);".data,
   "logger.warn(\x27Erreur nettoyage SQL, utilisation SQL brut\x27, \x7b\n      metadata: \x7b\n        service: \x27SQLEngineService\x27,\n        operation: \x27validateSQL\x27,\n        cleanError\n      \x7d\n    \x7d);".data),
  ("console.log(\x60[SQLSecurity] Étape 1: Parsing AST avec node-sql-parser...\x60);".data,
   "logger.info(\x27Parsing AST\x27, \x7b\n      metadata: \x7b\n        service: \x27SQLEngineService\x27,\n        operation: \x27validateSQL\x27,\n        step: 1\n      \x7d\n    \x7d);".data),
  ("console.log(\x60[SQLSecurity] ✓ Parsing AST réussi\x60);".data,
   "logger.info(\x27Parsing AST réussi\x27, \x7b\n      metadata: \x7b\n        service: \x27SQLEngineService\x27,\n        operation: \x27validateSQL\x27\n      \x7d\n    \x7d);".data),
  ("console.log(\x60[SQLSecurity] Étape 2: Vérification READ-ONLY ($\x7bastArray.length\x7d statement(s))...\x60);".data,
   "logger.info(\x27Vérification READ-ONLY\x27, \x7b\n      metadata: \x7b\n        service: \x27SQLEngineService\x27,\n        operation: \x27validateSQL\x27,\n        step: 2,\n        statementsCount: astArray.length\n      \x7d\n    \x7d);".data),
  ("console.log(\x60[SQLSecurity] ✗ $\x7bviolation\x7d\x60);".data,
   "logger.warn(\x27Violation sécurité SQL\x27, \x7b\n      metadata: \x7b\n        service: \x27SQLEngineService\x27,\n        operation: \x27validateSQL\x27,\n        violation\n      \x7d\n    \x7d);".data),
  ("console.log(\x60[SQLSecurity] ✓ Statement type: SELECT\x60);".data,
   "logger.info(\x27Statement type: SELECT\x27, \x7b\n      metadata: \x7b\n        service: \x27SQLEngineService\x27,\n        operation: \x27validateSQL\x27\n      \x7d\n    \x7d);".data),
  ("console.log(\x60[SQLSecurity] Étape 3: Validation des tables...\x60);".data,
   "logger.info(\x27Validation des tables\x27, \x7b\n      metadata: \x7b\n        service: \x27SQLEngineService\x27,\n        operation: \x27validateSQL\x27,\n        step: 3\n      \x7d\n    \x7d);".data),
  ("console.log(\x60[SQLSecurity] Tables extraites: [$\x7btablesInQuery.join(\x27, \x27)\x7d]\x60);".data,
   "logger.info(\x27Tables extraites\x27, \x7b\n      metadata: \x7b\n        service: \x27SQLEngineService\x27,\n        operation: \x27validateSQL\x27,\n        tables: tablesInQuery.join(\x27, \x27)\n      \x7d\n    \x7d);".data),
  ("console.log(\x60[SQLSecurity] ✓ Table autorisée: $\x7btableName\x7d\x60);".data,
   "logger.info(\x27Table autorisée\x27, \x7b\n      metadata: \x7b\n        service: \x27SQLEngineService\x27,\n        operation: \x27validateSQL\x27,\n        tableName\n      \x7d\n    \x7d);".data)
]

/-- Rules of migrate_remaining_sql in migrate_remaining_console.py (the sequence of re.sub calls); the trailing blank-line cleanup is modelled separately by cleanupSub. -/
def mrSqlRules : List (List Char × List Char) := [
  ("console.log(\x60[SQLSecurity] SQL à valider: $\x7bsql.substring(0, 200)\x7d$\x7bsql.length > 200 ? \x27...\x27: \x27\x27\x7d\x60);".data,
   "logger.info(\x27SQL à valider\x27, \x7b\n      metadata: \x7b\n        service: \x27SQLEngineService\x27,\n        operation: \x27validateSQL\x27,\n        sqlPreview: sql.substring(0, 200) + (sql.length > 200 ? \x27...\x27 : \x27\x27)\n      \x7d\n    \x7d);".data),
  ("console.log(\x60[SQLSecurity] ✓ SQL nettoyé ($\x7bcleanedSQL.length\x7d chars): $\x7bcleanedSQL.substring(0, 150)\x7d$\x7bcleanedSQL.length > 150 ? \x27...\x27: \x27\x27\x7d\x60);".data,
   "logger.info(\x27SQL nettoyé\x27, \x7b\n      metadata: \x7b\n        service: \x27SQLEngineService\x27,\n        operation: \x27validateSQL\x27,\n        cleanedSQLLength: cleanedSQL.length,\n        cleanedSQLPreview: cleanedSQL.substring(0, 150) + (cleanedSQL.length > 150 ? \x27...\x27 : \x27\x27)\n      \x7d\n    \x7d);".data),
  ("console.log(\x60[SQLSecurity] Étape 4: Validation des colonnes...\x60);".data,
   "logger.info(\x27Validation des colonnes\x27, \x7b\n      metadata: \x7b\n        service: \x27SQLEngineService\x27,\n        operation: \x27validateSQL\x27,\n        step: 4\n      \x7d\n    \x7d);".data),
  ("console.log(\x60[SQLSecurity] Colonnes extraites: $\x7bcolumnsInQuery.length\x7d colonne(s)\x60);".data,
   "logger.info(\x27Colonnes extraites\x27, \x7b\n      metadata: \x7b\n        service: \x27SQLEngineService\x27,\n        operation: \x27validateSQL\x27,\n        columnsCount: columnsInQuery.length\n      \x7d\n    \x7d);".data),
  ("console.log(\x60[SQLSecurity] Étape 5: Détection patterns d\x27injection...\x60);".data,
   "logger.info(\x27Détection patterns d\\\x27injection\x27, \x7b\n      metadata: \x7b\n        service: \x27SQLEngineService\x27,\n        operation: \x27validateSQL\x27,\n        step: 5\n      \x7d\n    \x7d);".data),
  ("console.log(\x60[SQLSecurity] ✗ Patterns d\x27injection détectés: $\x7bviolations.slice(injectionViolationsBefore).join(\x27, \x27)\x7d\x60);".data,
   "logger.warn(\x27Patterns d\\\x27injection détectés\x27, \x7b\n      metadata: \x7b\n        service: \x27SQLEngineService\x27,\n        operation: \x27validateSQL\x27,\n        patterns: violations.slice(injectionViolationsBefore).join(\x27, \x27)\n      \x7d\n    \x7d);".data),
  ("console.log(\x60[SQLSecurity] ✓ Aucun pattern d\x27injection détecté\x60);".data,
   "logger.info(\x27Aucun pattern d\\\x27injection détecté\x27, \x7b\n      metadata: \x7b\n        service: \x27SQLEngineService\x27,\n        operation: \x27validateSQL\x27\n      \x7d\n    \x7d);".data),
  ("console.log(\x60[SQLSecurity] Étape 6: Validation contraintes métier...\x60);".data,
   "logger.info(\x27Validation contraintes métier\x27, \x7b\n      metadata: \x7b\n        service: \x27SQLEngineService\x27,\n        operation: \x27validateSQL\x27,\n        step: 6\n      \x7d\n    \x7d);".data),
  ("console.log(\x60[SQLSecurity] ✗ Contraintes métier violées: $\x7bviolations.slice(businessViolationsBefore).join(\x27, \x27)\x7d\x60);".data,
   "logger.warn(\x27Contraintes métier violées\x27, \x7b\n      metadata: \x7b\n        service: \x27SQLEngineService\x27,\n        operation: \x27validateSQL\x27,\n        violations: violations.slice(businessViolationsBefore).join(\x27, \x27)\n      \x7d\n    \x7d);".data),
  ("console.log(\x60[SQLSecurity] ✓ Contraintes métier respectées\x60);".data,
   "logger.info(\x27Contraintes métier respectées\x27, \x7b\n      metadata: \x7b\n        service: \x27SQLEngineService\x27,\n        operation: \x27validateSQL\x27\n      \x7d\n    \x7d);".data),
  ("console.log(\x60[SQLSecurity] ✗ ERREUR PARSING: $\x7bviolation\x7d\x60);".data,
   "logger.error(\x27Erreur parsing SQL\x27, \x7b\n      metadata: \x7b\n        service: \x27SQLEngineService\x27,\n        operation: \x27validateSQL\x27,\n        violation\n      \x7d\n    \x7d);".data),
  ("console.log(\x60[SQLSecurity] SQL problématique: $\x7bsql\x7d\x60);".data,
   "logger.error(\x27SQL problématique\x27, \x7b\n      metadata: \x7b\n        service: \x27SQLEngineService\x27,\n        operation: \x27validateSQL\x27,\n        sql\n      \x7d\n    \x7d);".data),
  ("console.log(\x60[SQLSecurity] ═══════════════════════════════════════════\x60);".data,
   "".data),
  ("console.log(\x60[SQLSecurity] Résultat final: $\x7bisSecure ? \x27✓ SÉCURISÉ\x27 : \x27✗ REJETÉ\x27\x7d\x60);".data,
   "logger.info(\x27Résultat validation SQL\x27, \x7b\n      metadata: \x7b\n        service: \x27SQLEngineService\x27,\n        operation: \x27validateSQL\x27,\n        result: isSecure ? \x27SÉCURISÉ\x27 : \x27REJETÉ\x27\n      \x7d\n    \x7d);".data),
  ("console.log(\x60[SQLSecurity] Violations: $\x7bviolations.length\x7d\x60);".data,
   "logger.info(\x27Violations count\x27, \x7b\n      metadata: \x7b\n        service: \x27SQLEngineService\x27,\n        operation: \x27validateSQL\x27,\n        violationsCount: violations.length\n      \x7d\n    \x7d);".data),
  ("console.log(\x60[SQLSecurity] Détail violations:\x60);".data,
   "logger.info(\x27Détail violations\x27, \x7b\n      metadata: \x7b\n        service: \x27SQLEngineService\x27,\n        operation: \x27validateSQL\x27\n      \x7d\n    \x7d);".data),
  ("violations.forEach((v, i) => console.log(\x60[SQLSecurity]   $\x7bi + 1\x7d. $\x7bv\x7d\x60));".data,
   "violations.forEach((v, i) => logger.info(\x27Violation\x27, \x7b\n        metadata: \x7b\n          service: \x27SQLEngineService\x27,\n          operation: \x27validateSQL\x27,\n          index: i + 1,\n          violation: v\n        \x7d\n      \x7d));".data),
  ("console.log(\x27[SQLEngine] Note: Filtre user_id manquant, sera ajouté par RBAC\x27);".data,
   "logger.info(\x27Filtre user_id manquant, sera ajouté par RBAC\x27, \x7b\n      metadata: \x7b\n        service: \x27SQLEngineService\x27,\n        operation: \x27generateIntelligentContext\x27\n      \x7d\n    \x7d);".data),
  ("console.log(\x27[SQLEngine] Query échouée après timeout (ignorée):\x27, err.message);".data,
   "logger.warn(\x27Query échouée après timeout\x27, \x7b\n      metadata: \x7b\n        service: \x27SQLEngineService\x27,\n        operation: \x27executeNaturalLanguageQuery\x27,\n        error: err.message\n      \x7d\n    \x7d);".data),
  ("console.log(\x60[SQLEngine] Query $\x7bqueryId\x7d executed in $\x7bDate.now() - startTime\x7dms, $\x7bresultCount\x7d results\x60);".data,
   "logger.info(\x27Query executed\x27, \x7b\n      metadata: \x7b\n        service: \x27SQLEngineService\x27,\n        operation: \x27executeNaturalLanguageQuery\x27,\n        queryId,\n        durationMs: Date.now() - startTime,\n        resultsCount: resultCount\n      \x7d\n    \x7d);".data),
  ("console.error(\x27[SQLEngine] Erreur logging:\x27, error);".data,
   "logger.error(\x27Erreur logging\x27, \x7b\n      metadata: \x7b\n        service: \x27SQLEngineService\x27,\n        operation: \x27logQueryToAudit\x27,\n        error: error instanceof Error ? error.message : String(error),\n        stack: error instanceof Error ? error.stack : undefined\n      \x7d\n    \x7d);".data)
]

/-- Guard substring checked by each guarded migration function before any
rewriting: the literal text of the logger import test. -/
def loggerImportStr : List Char := ("import \x7b logger \x7d").data

/-- Rewrite pass of migrate_context_cache: its replacements loop, with the
number of occurrences replaced. -/
def ctxApply (content : List Char) : List Char × Nat :=
  applyRules content ctxRules

/-- migrate_context_cache of migrate_console_to_logger.py: returns early
without writing when the logger import is absent, otherwise applies ctxRules
and writes the result back unconditionally.  Result is the file content after
the run and whether a write occurred. -/
def migrateContextCache (content : List Char) : List Char × Bool :=
  if containsSub loggerImportStr content then ((ctxApply content).1, true)
  else (content, false)

/-- migrate_email_service of migrate_remaining_services.py: guard, then
emailRules, then an unconditional write. -/
def migrateEmailService (content : List Char) : List Char × Bool :=
  if containsSub loggerImportStr content then
    ((applyRules content emailRules).1, true)
  else (content, false)

/-- migrate_predictive_engine of migrate_remaining_services.py: guard, then
predictiveRules, then an unconditional write. -/
def migratePredictiveEngine (content : List Char) : List Char × Bool :=
  if containsSub loggerImportStr content then
    ((applyRules content predictiveRules).1, true)
  else (content, false)

/-- Rewrite pass of migrate_sql_engine: the replacements loop followed by the
blank-line cleanup re.sub, with the total number of replacements. -/
def sqlApply (s : List Char) : List Char × Nat :=
  let a := applyRules s sqlRules
  let b := cleanupSub a.1
  (b.1, a.2 + b.2)

/-- migrate_sql_engine of migrate_remaining_services.py: guard, then sqlRules
and the blank-line cleanup, then an unconditional write. -/
def migrateSqlEngine (content : List Char) : List Char × Bool :=
  if containsSub loggerImportStr content then ((sqlApply content).1, true)
  else (content, false)

/-- Rewrite pass of migrate_remaining_sql of migrate_remaining_console.py:
its sequence of re.sub calls followed by the blank-line cleanup, with the
total number of replacements. -/
def mrSqlApply (s : List Char) : List Char × Nat :=
  let a := applyRules s mrSqlRules
  let b := cleanupSub a.1
  (b.1, a.2 + b.2)

/-- The pattern counted by the verification functions. -/
def consolePat : List Char := ("console.").data

/-- Shared shape of verify and verify_migrations: fold over the three service
file contents, success only while every file has zero matches. -/
def verifyFiles (files : List (List Char)) : Bool :=
  files.foldl (fun acc c => acc && decide (countSub consolePat c = 0)) true

/-- verify of migrate_remaining_console.py applied to the contents of
emailService.ts, PredictiveEngineService.ts and SQLEngineService.ts. -/
def verify (e p s : List Char) : Bool :=
  verifyFiles [e, p, s]

/-- verify_migrations of migrate_remaining_services.py (same body as verify,
over the same three service files). -/
def verifyMigrations (e p s : List Char) : Bool :=
  verifyFiles [e, p, s]

/-- Six spaces: the hard-coded default base indentation of
fix-indentation-storage-facade.py. -/
def sp6 : List Char := ("      ").data

/-- Eight spaces. -/
def sp8 : List Char := ("        ").data

/-- Ten spaces: the nested offset added after the base indentation for
metadata properties. -/
def sp10 : List Char := ("          ").data

/-- Fourteen spaces: the excessive-indentation test prefix. -/
def sp14 : List Char := ("              ").data

/-- Eight spaces followed by a closing brace. -/
def sp8Brace : List Char := ("        \x7d").data

/-- The anchor marker of the indentation-repair script. -/
def metaMarker : List Char := ("metadata: \x7b").data

/-- Marker of a facade logger call line. -/
def fLogMarker : List Char := ("facadeLogger.").data

/-- Marker of a logger call line. -/
def logMarker : List Char := ("logger.").data

/-- A single closing brace, the stripped shape of a dangling block close. -/
def bracePat : List Char := ("\x7d").data

/-- A closing parenthesis and semicolon, the stripped shape of a dangling
call terminator. -/
def closePat : List Char := (");").data

/-- Python str.strip of trailing whitespace. -/
def pyStripEnd (l : List Char) : List Char :=
  (l.reverse.dropWhile pyIsSpace).reverse

/-- Python str.strip: drop leading and trailing whitespace. -/
def pyStrip (l : List Char) : List Char :=
  pyStripEnd (l.dropWhile pyIsSpace)

/-- The property names of the over-indented-property regex alternation. -/
def propWords : List (List Char) :=
  [("module").data, ("operation").data, ("error").data, ("id").data,
   ("count").data, ("projectId").data, ("weekNumber").data, ("year").data,
   ("category").data, ("userId").data, ("labelId").data, ("email").data]

/-- The over-indented-property test: twelve or more leading whitespace
characters followed by one of the property names and a colon (re.match of the
property regex). -/
def propMatches (l : List Char) : Bool :=
  decide (12 ≤ (wsTake l).length) &&
  propWords.any fun w => (w ++ [':']).isPrefixOf (l.drop (wsTake l).length)

/-- The over-indented closing brace test: the stripped line is a single brace
and the raw line starts with fourteen spaces or with eight spaces and a
brace. -/
def braceShape (l : List Char) : Bool :=
  decide (pyStrip l = bracePat) && (sp14.isPrefixOf l || sp8Brace.isPrefixOf l)

/-- Opening brace character. -/
def braceOpen : Char := Char.ofNat 123

/-- Closing brace character. -/
def braceClose : Char := Char.ofNat 125

/-- Single-quote character. -/
def quoteChar : Char := Char.ofNat 39

/-- The literal key of the metadata regex. -/
def metaKey : List Char := ("metadata:").data

/-- Attempt of the metadata regex at the head of s: the literal key, then a
whitespace run, then an opening brace, then at least one non-brace character
up to a closing brace; returns the captured group. -/
def tryMetaAt (s : List Char) : Option (List Char) :=
  if metaKey.isPrefixOf s then
    match (s.drop metaKey.length).dropWhile pyIsSpace with
    | [] => none
    | c :: w =>
      if c = braceOpen then
        let g := w.takeWhile fun x => !(x = braceClose)
        if g.length = 0 then none
        else if g.length < w.length then some g else none
      else none
  else none

/-- re.search of the metadata regex over a line: leftmost successful attempt. -/
def metaSearch : List Char → Option (List Char)
  | [] => none
  | c :: t =>
    match tryMetaAt (c :: t) with
    | some g => some g
    | none => metaSearch t

/-- The level names of the logger regex alternation, in order. -/
def levelNames : List (List Char) :=
  [("info").data, ("warn").data, ("error").data, ("debug").data]

/-- Attempt the level alternation and the quoted message after the dot: the
level name, an opening parenthesis and quote, then at least one non-quote
character up to a quote. -/
def tryLevel (u : List Char) : List (List Char) → Option (List Char × List Char)
  | [] => none
  | lv :: more =>
    if (lv ++ ['('] ++ [quoteChar]).isPrefixOf u then
      let v := u.drop (lv.length + 2)
      let msg := v.takeWhile fun x => !(x = quoteChar)
      if msg.length = 0 then tryLevel u more
      else if msg.length < v.length then some (lv, msg) else tryLevel u more
    else tryLevel u more

/-- Attempt of the logger regex at the head of s, trying the two logger-name
alternatives in order. -/
def tryLoggerAt (s : List Char) : Option (List Char × List Char × List Char) :=
  let tryWith := fun (g1 : List Char) =>
    if g1.isPrefixOf s then
      match s.drop g1.length with
      | [] => (none : Option (List Char × List Char × List Char))
      | c :: u =>
        if c = '.' then (tryLevel u levelNames).map (fun x => (g1, x.1, x.2))
        else none
    else none
  match tryWith ("this.facadeLogger").data with
  | some x => some x
  | none => tryWith ("logger").data

/-- re.search of the logger regex over a line: leftmost successful attempt. -/
def loggerSearch : List Char → Option (List Char × List Char × List Char)
  | [] => none
  | c :: t =>
    match tryLoggerAt (c :: t) with
    | some x => some x
    | none => loggerSearch t

/-- Backward scan of the script: starting at index i minus one and walking
down to zero, return the first line satisfying f. -/
def findBack (f : List Char → Bool) (lines : List (List Char)) : Nat → Option (List Char)
  | 0 => none
  | j + 1 => if f (lines.getD j []) then some (lines.getD j []) else findBack f lines j

/-- Base indentation used by the property and closing-brace branches: leading
whitespace of the nearest previous line containing the anchor marker, six
spaces when no such line exists. -/
def metaBase (lines : List (List Char)) (i : Nat) : List Char :=
  match findBack (fun l => containsSub metaMarker l) lines i with
  | some l => wsTake l
  | none => sp6

/-- Base indentation used by the metadata branch: leading whitespace of the
nearest previous logger line; six spaces when no such line exists or when the
found run is empty. -/
def loggerBase (lines : List (List Char)) (i : Nat) : List Char :=
  match findBack (fun l => containsSub fLogMarker l || containsSub logMarker l) lines i with
  | some l => if (wsTake l).isEmpty then sp6 else wsTake l
  | none => sp6

/-- Fuelled Python str.split on commas. -/
def splitCommaF : Nat → List Char → List (List Char)
  | 0, l => [l]
  | fuel + 1, l =>
    let a := l.takeWhile fun c => !(c = ',')
    match l.drop a.length with
    | [] => [a]
    | _ :: t => a :: splitCommaF fuel t

/-- Python str.split on commas. -/
def splitComma (l : List Char) : List (List Char) :=
  splitCommaF l.length l

/-- Python str.join with a comma and newline separator. -/
def joinCommaNl : List (List Char) → List Char
  | [] => []
  | [x] => x
  | x :: y :: rest => x ++ (",\n").data ++ joinCommaNl (y :: rest)

/-- Properties parsed from the captured metadata group: strip, split on
commas, strip each piece and keep the nonempty ones. -/
def metaProps (g : List Char) : List (List Char) :=
  ((splitComma (pyStrip g)).map pyStrip).filter fun x => !x.isEmpty

/-- The joined property block of the metadata branch. -/
def formattedProps (base g : List Char) : List Char :=
  joinCommaNl ((metaProps g).map fun pr => base ++ sp10 ++ pr)

/-- The three-line trigger of the metadata branch: the line contains the
anchor marker, three more lines exist, the next line strips to a brace and
starts with eight or fourteen spaces, and the line after strips to a call
terminator. -/
def metaCondAt (lines : List (List Char)) (i : Nat) : Bool :=
  containsSub metaMarker (lines.getD i []) && decide (i + 3 < lines.length) &&
  decide (pyStrip (lines.getD (i + 1) []) = bracePat) &&
  decide (pyStrip (lines.getD (i + 2) []) = closePat) &&
  (sp8.isPrefixOf (lines.getD (i + 1) []) || sp14.isPrefixOf (lines.getD (i + 1) []))

/-- The metadata branch fires when its trigger holds and both the metadata
regex and the logger regex find a match on the line. -/
def metaFires (lines : List (List Char)) (i : Nat) : Bool :=
  metaCondAt lines i && (metaSearch (lines.getD i [])).isSome &&
  (loggerSearch (lines.getD i [])).isSome

/-- Lines emitted by the metadata branch in place of lines i, i+1 and i+2. -/
def metaEmit (lines : List (List Char)) (i : Nat) : List (List Char) :=
  let line := lines.getD i []
  let g := (metaSearch line).getD []
  let t := (loggerSearch line).getD ([], [], [])
  let base := loggerBase lines i
  let fp := formattedProps base g
  [base ++ t.1 ++ ['.'] ++ t.2.1 ++ ['(', quoteChar] ++ t.2.2 ++ [quoteChar] ++ (", \x7b\n").data,
   base ++ ("        metadata: \x7b\n").data] ++
  (if fp.isEmpty then [] else [fp ++ ['\n']]) ++
  [base ++ ("        \x7d\n").data, base ++ ("      \x7d);\n").data]

/-- Line emitted by the over-indented-property branch. -/
def propEmit (lines : List (List Char)) (i : Nat) : List Char :=
  metaBase lines i ++ sp10 ++ pyStrip (lines.getD i []) ++ ['\n']

/-- Line emitted by the over-indented-closing-brace branch. -/
def braceEmit (lines : List (List Char)) (i : Nat) : List Char :=
  metaBase lines i ++ ("        \x7d\n").data

/-- One iteration of the repair loop at index i: the emitted lines and the
increment of the correction counter, following the branch order of the
script. -/
def fixEmit (lines : List (List Char)) (i : Nat) : List (List Char) × Nat :=
  if metaFires lines i then (metaEmit lines i, 1)
  else if propMatches (lines.getD i []) then ([propEmit lines i], 1)
  else if braceShape (lines.getD i []) then ([braceEmit lines i], 1)
  else ([lines.getD i []], 0)

/-- Index advance of one iteration: three when the metadata branch fires,
one otherwise. -/
def fixAdvance (lines : List (List Char)) (i : Nat) : Nat :=
  if metaFires lines i then 3 else 1

/-- Fuelled repair loop from index i. -/
def fixFromF (lines : List (List Char)) : Nat → Nat → List (List Char) × Nat
  | 0, _ => ([], 0)
  | fuel + 1, i =>
    if i < lines.length then
      let e := fixEmit lines i
      let rest := fixFromF lines fuel (i + fixAdvance lines i)
      (e.1 ++ rest.1, e.2 + rest.2)
    else ([], 0)

/-- The repair loop of fix-indentation-storage-facade.py from index i:
emitted lines and correction count. -/
def fixFrom (lines : List (List Char)) (i : Nat) : List (List Char) × Nat :=
  fixFromF lines (lines.length - i) i

/-- The whole indentation-repair engine: new_lines and fixed. -/
def fixLines (lines : List (List Char)) : List (List Char) × Nat :=
  fixFrom lines 0

/-- Driver of fix-indentation-storage-facade.py: writes new_lines only when
the correction count is positive; otherwise the file keeps its lines and no
write occurs.  Result is the file content after the run and whether a write
occurred. -/
def fixIndentMain (lines : List (List Char)) : List (List Char) × Bool :=
  let a := fixLines lines
  if 0 < a.2 then (a.1, true) else (lines, false)

/-- A position k of the input is part of a repaired shape when the metadata
branch fires at k or at one of the two preceding positions (the fired window
spans three lines), or line k matches the over-indented property or
closing-brace shapes. -/
def shapeAt (lines : List (List Char)) (k : Nat) : Bool :=
  metaFires lines k ||
  (decide (1 ≤ k) && metaFires lines (k - 1)) ||
  (decide (2 ≤ k) && metaFires lines (k - 2)) ||
  propMatches (lines.getD k []) || braceShape (lines.getD k [])

/-- No position of the input triggers the metadata branch. -/
def noMetaAll (lines : List (List Char)) : Bool :=
  (List.range lines.length).all fun i => !metaFires lines i

/-- Number of positions where two line lists differ (compared up to the
shorter length). -/
def diffCount (a b : List (List Char)) : Nat :=
  ((a.zip b).filter fun x => !(x.1 = x.2 : Bool)).length

/-- The separator-deletion pattern of migrate_sql_engine (rule with an empty
replacement). -/
def sqlSepPat : List Char :=
  ("console.log(\x60[SQLEngine] ========================================\x60);").data

/-- A document built from the separator-deletion pattern: its first character,
then the whole pattern, then the rest of the pattern.  Deleting the embedded
occurrence splices the outer halves into a fresh occurrence. -/
def sqlTwistDoc : List Char :=
  sqlSepPat.take 1 ++ sqlSepPat ++ sqlSepPat.drop 1

theorem occ_nil_iff {p : List Char} : Occ p [] ↔ p = [] := by
  constructor
  · rintro ⟨a, b, h⟩
    rcases List.append_eq_nil.mp h.symm with ⟨h1, h2⟩
    exact (List.append_eq_nil.mp h1).2
  · rintro rfl; exact ⟨[], [], rfl⟩

theorem occ_cons_iff {p : List Char} {c : Char} {t : List Char} :
    Occ p (c :: t) ↔ p <+: (c :: t) ∨ Occ p t := by
  constructor
  · rintro ⟨a, b, h⟩
    cases a with
    | nil => exact Or.inl ⟨b, by simpa using h.symm⟩
    | cons x a' =>
      right
      simp only [List.cons_append, List.cons.injEq] at h
      exact ⟨a', b, h.2⟩
  · rintro (⟨b, hb⟩ | ⟨a, b, h⟩)
    · exact ⟨[], b, by simp [hb.symm]⟩
    · exact ⟨c :: a, b, by simp [h]⟩

theorem occ_iff_containsSub {p s : List Char} : Occ p s ↔ containsSub p s = true := by
  induction s with
  | nil =>
    simp [containsSub, occ_nil_iff, List.isEmpty_iff]
  | cons c t ih =>
    simp [containsSub, occ_cons_iff, ih, List.isPrefixOf_iff_prefix]

theorem occ_append_left {p x y : List Char} (h : Occ p x) : Occ p (x ++ y) := by
  obtain ⟨a, b, rfl⟩ := h
  exact ⟨a, b ++ y, by simp⟩

theorem occ_append_right {p x y : List Char} (h : Occ p y) : Occ p (x ++ y) := by
  obtain ⟨a, b, rfl⟩ := h
  exact ⟨x ++ a, b, by simp⟩

theorem occ_of_occ_drop {p s : List Char} {n : Nat} (h : Occ p (s.drop n)) : Occ p s := by
  obtain ⟨a, b, hd⟩ := h
  refine ⟨s.take n ++ a, b, ?_⟩
  conv_lhs => rw [← List.take_append_drop n s, hd]
  simp

theorem occ_of_occ_cons {p : List Char} {c : Char} {t : List Char} (h : Occ p t) :
    Occ p (c :: t) :=
  occ_cons_iff.mpr (Or.inr h)

theorem occ_append_split {p x y : List Char} (h : Occ p (x ++ y)) :
    Occ p x ∨ Occ p y ∨
      ∃ j, 0 < j ∧ j < p.length ∧ p.take j <:+ x ∧ p.drop j <+: y := by
  obtain ⟨a, b, hab⟩ := h
  rw [List.append_assoc] at hab
  rcases List.append_eq_append_iff.mp hab with ⟨w, hw1, hw2⟩ | ⟨w, hw1, hw2⟩
  · exact Or.inr (Or.inl ⟨w, b, by simpa using hw2⟩)
  · rcases List.append_eq_append_iff.mp hw2 with ⟨v, hv1, hv2⟩ | ⟨v, hv1, hv2⟩
    · subst hv1
      exact Or.inl ⟨a, v, by rw [hw1]; simp⟩
    · subst hv1
      cases v with
      | nil => exact Or.inl ⟨a, [], by rw [hw1]; simp⟩
      | cons v0 v' =>
        cases w with
        | nil => exact Or.inr (Or.inl ⟨[], b, by rw [hv2]; simp⟩)
        | cons w0 w' =>
          refine Or.inr (Or.inr ⟨(w0 :: w').length, by simp, ?_, ?_, ?_⟩)
          · simp [List.length_append]
          · rw [List.take_left]
            exact ⟨a, hw1.symm⟩
          · rw [List.drop_left]
            exact ⟨b, hv2.symm⟩

theorem occ_of_pref {p s : List Char} (h : p <+: s) : Occ p s := by
  obtain ⟨u, hu⟩ := h
  exact ⟨[], u, by simp [hu.symm]⟩

theorem subAllF_nil {p r : List Char} : ∀ fuel, subAllF p r fuel [] = ([], 0) := by
  intro fuel; cases fuel <;> rfl

theorem subAllF_succ_match {p r : List Char} {f : Nat} {c : Char} {t : List Char}
    (h : p ≠ [] ∧ p.isPrefixOf (c :: t)) :
    subAllF p r (f + 1) (c :: t) =
      (r ++ (subAllF p r f ((c :: t).drop p.length)).1,
       (subAllF p r f ((c :: t).drop p.length)).2 + 1) := by
  simp [subAllF, h]

theorem subAllF_succ_keep {p r : List Char} {f : Nat} {c : Char} {t : List Char}
    (h : ¬(p ≠ [] ∧ p.isPrefixOf (c :: t))) :
    subAllF p r (f + 1) (c :: t) = (c :: (subAllF p r f t).1, (subAllF p r f t).2) := by
  simp only [subAllF, if_neg h]

theorem subAllF_id_of_not_occ {p r : List Char} :
    ∀ fuel s, s.length ≤ fuel → ¬ Occ p s → subAllF p r fuel s = (s, 0) := by
  intro fuel
  induction fuel with
  | zero =>
    intro s hs _
    cases s with
    | nil => rfl
    | cons c t => simp at hs
  | succ f ih =>
    intro s hs hno
    cases s with
    | nil => rfl
    | cons c t =>
      have hm : ¬(p ≠ [] ∧ p.isPrefixOf (c :: t)) := by
        rintro ⟨hp, hpre⟩
        exact hno (occ_of_pref (List.isPrefixOf_iff_prefix.mp hpre))
      rw [subAllF_succ_keep hm,
        ih t (by simpa using Nat.le_of_succ_le_succ hs)
          (fun hx => hno (occ_of_occ_cons hx))]

theorem subAllF_fst_of_snd_zero {p r : List Char} :
    ∀ fuel s, (subAllF p r fuel s).2 = 0 → (subAllF p r fuel s).1 = s := by
  intro fuel
  induction fuel with
  | zero => intro s _; rfl
  | succ f ih =>
    intro s h2
    cases s with
    | nil => rfl
    | cons c t =>
      by_cases hm : p ≠ [] ∧ p.isPrefixOf (c :: t)
      · rw [subAllF_succ_match hm] at h2 ⊢
        simp at h2
      · rw [subAllF_succ_keep hm] at h2 ⊢
        rw [ih t h2]

theorem subAllF_purge {p q r : List Char} (hp : p ≠ [])
    (h1 : ¬ Occ p r)
    (h2 : ∀ j, 0 < j → j < p.length → ¬ p.take j <:+ r)
    (h3 : ∀ j, 0 < j → j < p.length → ¬ p.drop j <+: r)
    (h4 : ∀ j, 0 < j → j < p.length → ¬ r <+: p.drop j) :
    ∀ fuel s, s.length ≤ fuel →
      ((q = p ∨ ¬ Occ p s) → ¬ Occ p (subAllF q r fuel s).1) ∧
      (∀ j, 0 < j → j < p.length →
        p.drop j <+: (subAllF q r fuel s).1 → p.drop j <+: s) := by
  intro fuel
  induction fuel with
  | zero =>
    intro s hs
    have hsn : s = [] := List.length_eq_zero.mp (Nat.le_zero.mp hs)
    subst hsn
    rw [subAllF_nil]
    exact ⟨fun _ hocc => hp (occ_nil_iff.mp hocc), fun j _ _ hpre => hpre⟩
  | succ f ih =>
    intro s hs
    cases s with
    | nil =>
      rw [subAllF_nil]
      exact ⟨fun _ hocc => hp (occ_nil_iff.mp hocc), fun j _ _ hpre => hpre⟩
    | cons c t =>
      simp only [List.length_cons] at hs
      by_cases hm : q ≠ [] ∧ q.isPrefixOf (c :: t)
      · have hq1 : 0 < q.length := List.length_pos.mpr hm.1
        have hdlen : ((c :: t).drop q.length).length ≤ f := by
          simp only [List.length_drop, List.length_cons]
          omega
        obtain ⟨ihA1, ihA2⟩ := ih ((c :: t).drop q.length) hdlen
        rw [subAllF_succ_match hm]
        constructor
        · intro hyp hocc
          rcases occ_append_split hocc with hr | hA | ⟨j, hj0, hjl, hsuf, _⟩
          · exact h1 hr
          · refine ihA1 ?_ hA
            rcases hyp with hqp | hno
            · exact Or.inl hqp
            · exact Or.inr fun hx => hno (occ_of_occ_drop hx)
          · exact h2 j hj0 hjl hsuf
        · intro j hj0 hjl hpre
          by_cases hlen : (p.drop j).length ≤ r.length
          · exact absurd (List.prefix_of_prefix_length_le hpre (List.prefix_append r _) hlen)
              (h3 j hj0 hjl)
          · have hr2 : r <+: p.drop j :=
              List.prefix_of_prefix_length_le (List.prefix_append r _) hpre (by omega)
            exact absurd hr2 (h4 j hj0 hjl)
      · obtain ⟨ihB1, ihB2⟩ := ih t (by omega)
        rw [subAllF_succ_keep hm]
        constructor
        · intro hyp hocc
          rcases occ_cons_iff.mp hocc with hpre | hB
          · cases hp2 : p with
            | nil => exact hp hp2
            | cons p0 p' =>
              subst hp2
              obtain ⟨hc, hp'⟩ := List.cons_prefix_cons.mp hpre
              subst hc
              have hpt : p0 :: p' <+: p0 :: t := by
                cases p' with
                | nil => exact List.cons_prefix_cons.mpr ⟨rfl, List.nil_prefix⟩
                | cons p1 p'' =>
                  have h5 := ihB2 1 one_pos (by simp) (by simpa using hp')
                  exact List.cons_prefix_cons.mpr ⟨rfl, by simpa using h5⟩
              rcases hyp with hqp | hno
              · exact hm ⟨by rw [hqp]; exact hp,
                  by rw [hqp]; exact List.isPrefixOf_iff_prefix.mpr hpt⟩
              · exact hno (occ_of_pref hpt)
          · refine ihB1 ?_ hB
            rcases hyp with hqp | hno
            · exact Or.inl hqp
            · exact Or.inr fun hx => hno (occ_of_occ_cons hx)
        · intro j hj0 hjl hpre
          have hdnn : 0 < (p.drop j).length := by
            simp only [List.length_drop]
            omega
          cases hd : p.drop j with
          | nil => rw [hd] at hdnn; simp at hdnn
          | cons d0 d' =>
            rw [hd] at hpre
            obtain ⟨hc, hd'⟩ := List.cons_prefix_cons.mp hpre
            subst hc
            have hd'eq : p.drop (j + 1) = d' := by
              have hdd : (p.drop j).drop 1 = p.drop (j + 1) := by rw [List.drop_drop]
              rw [hd] at hdd
              simpa using hdd.symm
            cases hd'' : d' with
            | nil =>
              exact List.cons_prefix_cons.mpr ⟨rfl, List.nil_prefix⟩
            | cons d1 d2 =>
              have hjl1 : j + 1 < p.length := by
                have hld : (p.drop (j + 1)).length = p.length - (j + 1) :=
                  List.length_drop _ _
                rw [hd'eq, hd''] at hld
                simp at hld
                omega
              have h6 := ihB2 (j + 1) (by omega) hjl1 (by rw [hd'eq]; exact hd')
              rw [hd'eq, hd''] at h6
              exact List.cons_prefix_cons.mpr ⟨rfl, h6⟩

theorem bool_not_prefix {x y : List Char} (h : x.isPrefixOf y = false) : ¬ x <+: y := by
  intro hpre
  rw [List.isPrefixOf_iff_prefix.mpr hpre] at h
  simp at h

theorem bool_not_suffix {x y : List Char} (h : x.isSuffixOf y = false) : ¬ x <:+ y := by
  intro hsuf
  rw [List.isSuffixOf_iff_suffix.mpr hsuf] at h
  simp at h

theorem patOK_spec {p r : List Char} (h : patOK p r = true) :
    p ≠ [] ∧ ¬ Occ p r ∧
    (∀ j, 0 < j → j < p.length → ¬ p.take j <:+ r) ∧
    (∀ j, 0 < j → j < p.length → ¬ p.drop j <+: r) ∧
    (∀ j, 0 < j → j < p.length → ¬ r <+: p.drop j) := by
  simp only [patOK, Bool.and_eq_true, List.all_eq_true, decide_eq_true_eq,
    Bool.or_eq_true, Bool.not_eq_true', List.mem_range] at h
  obtain ⟨⟨hp, hocc⟩, hall⟩ := h
  have hno : ¬ Occ p r := by
    intro hx
    rw [occ_iff_containsSub] at hx
    rw [hx] at hocc
    simp at hocc
  refine ⟨hp, hno, ?_, ?_, ?_⟩
  · intro j hj0 hjl
    rcases hall j hjl with hz | ⟨⟨_, hb⟩, _⟩
    · omega
    · exact bool_not_suffix hb
  · intro j hj0 hjl
    rcases hall j hjl with hz | ⟨⟨ha, _⟩, _⟩
    · omega
    · exact bool_not_prefix ha
  · intro j hj0 hjl
    rcases hall j hjl with hz | ⟨⟨_, _⟩, hc⟩
    · omega
    · exact bool_not_prefix hc

theorem applyRules_cons (s : List Char) (pr : List Char × List Char)
    (rest : List (List Char × List Char)) :
    applyRules s (pr :: rest) =
      ((applyRules (subAll pr.1 pr.2 s).1 rest).1,
       (subAll pr.1 pr.2 s).2 + (applyRules (subAll pr.1 pr.2 s).1 rest).2) := rfl

theorem applyRules_id_of_no_occ {rules : List (List Char × List Char)} :
    ∀ s, (∀ pr ∈ rules, ¬ Occ pr.1 s) → applyRules s rules = (s, 0) := by
  induction rules with
  | nil => intro s _; rfl
  | cons x rest ih =>
    intro s h
    have hx : subAll x.1 x.2 s = (s, 0) :=
      subAllF_id_of_not_occ s.length s le_rfl (h x (List.mem_cons_self x rest))
    rw [applyRules_cons, hx]
    rw [ih s fun pr hpr => h pr (List.mem_cons_of_mem x hpr)]
    simp

theorem applyRules_preserve {p : List Char} (hp : p ≠ []) :
    ∀ (rules : List (List Char × List Char)) (s : List Char),
      (∀ pr ∈ rules, patOK p pr.2 = true) → ¬ Occ p s →
      ¬ Occ p (applyRules s rules).1 := by
  intro rules
  induction rules with
  | nil => intro s _ hno; exact hno
  | cons x rest ih =>
    intro s hall hno
    obtain ⟨_, hx1, hx2, hx3, hx4⟩ := patOK_spec (hall x (List.mem_cons_self x rest))
    have h7 : ¬ Occ p (subAll x.1 x.2 s).1 :=
      (subAllF_purge hp hx1 hx2 hx3 hx4 s.length s le_rfl).1 (Or.inr hno)
    rw [applyRules_cons]
    exact ih _ (fun pr hpr => hall pr (List.mem_cons_of_mem x hpr)) h7

theorem applyRules_no_occ :
    ∀ (rules : List (List Char × List Char)), rulesOK rules = true →
      ∀ s pr, pr ∈ rules → ¬ Occ pr.1 (applyRules s rules).1 := by
  intro rules
  induction rules with
  | nil => intro _ s pr hpr; simp at hpr
  | cons x rest ih =>
    intro hok s pr hpr
    simp only [rulesOK, List.all_eq_true] at hok
    rcases List.mem_cons.mp hpr with rfl | hmem
    · obtain ⟨hpne, hx1, hx2, hx3, hx4⟩ :=
        patOK_spec (hok pr (List.mem_cons_self pr rest) pr (List.mem_cons_self pr rest))
      have h8 : ¬ Occ pr.1 (subAll pr.1 pr.2 s).1 :=
        (subAllF_purge hpne hx1 hx2 hx3 hx4 s.length s le_rfl).1 (Or.inl rfl)
      rw [applyRules_cons]
      exact applyRules_preserve hpne rest _
        (fun q hq => hok pr (List.mem_cons_self pr rest) q (List.mem_cons_of_mem pr hq)) h8
    · rw [applyRules_cons]
      refine ih ?_ _ pr hmem
      simp only [rulesOK, List.all_eq_true]
      intro a ha b hb
      exact hok a (List.mem_cons_of_mem x ha) b (List.mem_cons_of_mem x hb)

theorem cleanupF_id_of_no_trig :
    ∀ fuel s, hasTrig s = false → cleanupF fuel s = (s, 0) := by
  intro fuel
  induction fuel with
  | zero => intro s _; rfl
  | succ f ih =>
    intro s hf
    cases s with
    | nil => rfl
    | cons c t =>
      have hcond : ¬(c = '\n' ∧ 3 ≤ runNl (c :: t)) := by
        rintro ⟨h1, h2⟩
        subst h1
        have hT : hasTrig ('\n' :: t) = true := by simp [hasTrig, h2]
        rw [hf] at hT
        exact Bool.false_ne_true hT
      have htail : hasTrig t = false := by
        cases hh : hasTrig t
        · rfl
        · have hT : hasTrig (c :: t) = true := by simp [hasTrig, hh]
          rw [hf] at hT
          exact absurd hT (by simp)
      simp only [cleanupF, if_neg hcond]
      rw [ih t htail]

theorem applyRules_fst_of_snd_zero {rules : List (List Char × List Char)} :
    ∀ s, (applyRules s rules).2 = 0 → (applyRules s rules).1 = s := by
  induction rules with
  | nil => intro s _; rfl
  | cons x rest ih =>
    intro s h
    rw [applyRules_cons] at h ⊢
    simp only at h ⊢
    have ha : (subAll x.1 x.2 s).2 = 0 := by omega
    have hb : (applyRules (subAll x.1 x.2 s).1 rest).2 = 0 := by omega
    rw [ih _ hb]
    exact subAllF_fst_of_snd_zero s.length s ha

/-- C2: a document containing none of the configured patterns of
migrate_remaining_sql (neither a rule pattern nor a blank-line cleanup match)
is returned unchanged with a change count of 0. -/
theorem c2_noop_stability (s : List Char)
    (hrules : mrSqlRules.all (fun pr => !(containsSub pr.1 s)) = true)
    (htrig : hasTrig s = false) :
    mrSqlApply s = (s, 0) := by
  have hno : ∀ pr ∈ mrSqlRules, ¬ Occ pr.1 s := by
    intro pr hpr hocc
    have hb := List.all_eq_true.mp hrules pr hpr
    simp only [Bool.not_eq_true'] at hb
    rw [occ_iff_containsSub] at hocc
    simp [hocc] at hb
  have h1 : applyRules s mrSqlRules = (s, 0) := applyRules_id_of_no_occ s hno
  have h2 : cleanupSub s = (s, 0) := cleanupF_id_of_no_trig s.length s htrig
  simp [mrSqlApply, h1, h2]

theorem c2_noop_stability_witness :
    mrSqlRules.all (fun pr => !(containsSub pr.1 ("const x = 1;\n").data)) = true ∧
    hasTrig ("const x = 1;\n").data = false ∧
    mrSqlApply ("const x = 1;\n").data = (("const x = 1;\n").data, 0) :=
  ⟨by decide, by decide, c2_noop_stability (("const x = 1;\n").data) (by decide) (by decide)⟩

set_option maxRecDepth 40000 in
/-- C3 counterexample: the full rule set of migrate_sql_engine is not
idempotent.  On sqlTwistDoc the first application deletes the embedded
separator pattern, splicing the two outer halves into a fresh copy of the
pattern; the second application deletes that copy, changing the text again
and reporting one further change instead of zero. -/
theorem c3_counterexample :
    sqlApply sqlTwistDoc = (sqlSepPat, 1) ∧ sqlApply sqlSepPat = ([], 1) := by
  constructor <;> decide

/-- C3 amended: applying a rule list twice in succession yields the text of
one application and zero further changes whenever the rule list satisfies the
non-recreation conditions rulesOK (every pattern nonempty, occurring in no
replacement of the list, and free of the prefix/suffix overlaps that let a
replacement splice a new match).  The rule lists of migrate_sql_engine and
migrate_remaining_sql violate rulesOK through their empty-replacement
separator-deletion rules, and idempotence genuinely fails for them. -/
theorem c3_amended (rules : List (List Char × List Char)) (s : List Char)
    (hok : rulesOK rules = true) :
    applyRules (applyRules s rules).1 rules = ((applyRules s rules).1, 0) :=
  applyRules_id_of_no_occ _ fun pr hpr => applyRules_no_occ rules hok s pr hpr

theorem c3_amended_witness :
    rulesOK [(("ab").data, ("XY").data)] = true ∧
    applyRules (applyRules ("abab").data [(("ab").data, ("XY").data)]).1
        [(("ab").data, ("XY").data)] =
      ((applyRules ("abab").data [(("ab").data, ("XY").data)]).1, 0) :=
  ⟨by decide, c3_amended [(("ab").data, ("XY").data)] (("abab").data) (by decide)⟩

/-- C5: the rewrite engine is sequential: the tail rules are applied to the
result of the head rule (so rule N+1 sees the effects of rule N), and on the
concrete order-sensitivity scenario of the spec the output of the first rule is
rewritten by the second rule. -/
theorem c5_order_sequential :
    (∀ (s p r : List Char) (rest : List (List Char × List Char)),
      applyRules s ((p, r) :: rest) =
        ((applyRules (subAll p r s).1 rest).1,
         (subAll p r s).2 + (applyRules (subAll p r s).1 rest).2)) ∧
    applyRules ("a").data [(("a").data, ("X(Y)").data), (("X(").data, ("Z(").data)] =
      (("Z(Y)").data, 2) :=
  ⟨fun _ _ _ _ => rfl, by decide⟩

/-- C8: when the content of the target file lacks the logger-import substring,
each guarded migration function returns early: no write occurs and the
content is unchanged. -/
theorem c8_guard_no_write (content : List Char)
    (h : containsSub loggerImportStr content = false) :
    migrateContextCache content = (content, false) ∧
    migrateEmailService content = (content, false) ∧
    migratePredictiveEngine content = (content, false) ∧
    migrateSqlEngine content = (content, false) := by
  refine ⟨?_, ?_, ?_, ?_⟩ <;>
    simp [migrateContextCache, migrateEmailService, migratePredictiveEngine,
      migrateSqlEngine, h]

theorem c8_guard_no_write_witness :
    containsSub loggerImportStr ("const x = 1;\n").data = false ∧
    migrateContextCache ("const x = 1;\n").data = (("const x = 1;\n").data, false) :=
  ⟨by decide, (c8_guard_no_write (("const x = 1;\n").data) (by decide)).1⟩

/-- C9: verify and verify_migrations succeed exactly when each of the three
service files contains zero matches of the console pattern; a positive count
in any file yields failure. -/
theorem c9_verify_iff (e p s : List Char) :
    (verify e p s = true ↔
      countSub consolePat e = 0 ∧ countSub consolePat p = 0 ∧
      countSub consolePat s = 0) ∧
    (verifyMigrations e p s = true ↔
      countSub consolePat e = 0 ∧ countSub consolePat p = 0 ∧
      countSub consolePat s = 0) := by
  constructor <;>
    simp [verify, verifyMigrations, verifyFiles, List.foldl, Bool.and_eq_true,
      and_assoc]

theorem fixAdvance_pos (lines : List (List Char)) (i : Nat) : 1 ≤ fixAdvance lines i := by
  unfold fixAdvance
  split <;> omega

theorem metaFires_lt {lines : List (List Char)} {i : Nat}
    (h : metaFires lines i = true) : i + 3 < lines.length := by
  simp only [metaFires, metaCondAt, Bool.and_eq_true, decide_eq_true_eq] at h
  exact h.1.1.1.1.1.2

theorem fixAdvance_le {lines : List (List Char)} {i : Nat} (h : i < lines.length) :
    i + fixAdvance lines i ≤ lines.length := by
  by_cases hm : metaFires lines i = true
  · have := metaFires_lt hm
    simp [fixAdvance, hm]
    omega
  · simp [fixAdvance, hm]
    omega

theorem fixFromF_irrel (lines : List (List Char)) :
    ∀ f1 f2 i, lines.length - i ≤ f1 → lines.length - i ≤ f2 →
      fixFromF lines f1 i = fixFromF lines f2 i := by
  intro f1
  induction f1 with
  | zero =>
    intro f2 i h1 _
    have hi : ¬ i < lines.length := by omega
    cases f2 with
    | zero => rfl
    | succ g => simp [fixFromF, hi]
  | succ f ih =>
    intro f2 i h1 h2
    cases f2 with
    | zero =>
      have hi : ¬ i < lines.length := by omega
      simp [fixFromF, hi]
    | succ g =>
      by_cases hi : i < lines.length
      · simp only [fixFromF, if_pos hi]
        have hadv := fixAdvance_pos lines i
        rw [ih g (i + fixAdvance lines i) (by omega) (by omega)]
      · simp [fixFromF, hi]

theorem fixFrom_step {lines : List (List Char)} {i : Nat} (h : i < lines.length) :
    fixFrom lines i =
      ((fixEmit lines i).1 ++ (fixFrom lines (i + fixAdvance lines i)).1,
       (fixEmit lines i).2 + (fixFrom lines (i + fixAdvance lines i)).2) := by
  unfold fixFrom
  obtain ⟨k, hk⟩ : ∃ k, lines.length - i = k + 1 := ⟨lines.length - i - 1, by omega⟩
  rw [hk]
  simp only [fixFromF, if_pos h]
  have hadv := fixAdvance_pos lines i
  rw [fixFromF_irrel lines k (lines.length - (i + fixAdvance lines i))
    (i + fixAdvance lines i) (by omega) (le_refl _)]

theorem fixFrom_end {lines : List (List Char)} {i : Nat} (h : lines.length ≤ i) :
    fixFrom lines i = ([], 0) := by
  unfold fixFrom
  have h0 : lines.length - i = 0 := by omega
  rw [h0]
  rfl

theorem fixEmit_zero {lines : List (List Char)} {i : Nat}
    (h : (fixEmit lines i).2 = 0) :
    fixEmit lines i = ([lines.getD i []], 0) ∧ fixAdvance lines i = 1 := by
  by_cases h1 : metaFires lines i = true
  · unfold fixEmit at h
    rw [if_pos h1] at h
    simp at h
  · by_cases h2 : propMatches (lines.getD i []) = true
    · unfold fixEmit at h
      rw [if_neg h1, if_pos h2] at h
      simp at h
    · by_cases h3 : braceShape (lines.getD i []) = true
      · unfold fixEmit at h
        rw [if_neg h1, if_neg h2, if_pos h3] at h
        simp at h
      · unfold fixEmit fixAdvance
        rw [if_neg h1, if_neg h2, if_neg h3, if_neg h1]
        exact ⟨rfl, rfl⟩

theorem fixFromF_fst_of_snd_zero (lines : List (List Char)) :
    ∀ fuel i, lines.length - i ≤ fuel → (fixFromF lines fuel i).2 = 0 →
      (fixFromF lines fuel i).1 = lines.drop i := by
  intro fuel
  induction fuel with
  | zero =>
    intro i h1 _
    have hle : lines.length ≤ i := by omega
    simp [fixFromF, List.drop_eq_nil_of_le hle]
  | succ f ih =>
    intro i h1 h2
    by_cases hi : i < lines.length
    · simp only [fixFromF, if_pos hi] at h2 ⊢
      have he : (fixEmit lines i).2 = 0 := by omega
      have hr0 : (fixFromF lines f (i + fixAdvance lines i)).2 = 0 := by omega
      obtain ⟨hemit, hadv⟩ := fixEmit_zero he
      rw [hadv] at hr0
      rw [hemit, hadv, ih (i + 1) (by omega) hr0]
      simp only [List.singleton_append]
      rw [List.getD_eq_getElem lines [] hi]
      exact (List.drop_eq_getElem_cons hi).symm
    · simp only [fixFromF, if_neg hi] at h2 ⊢
      have hle : lines.length ≤ i := by omega
      simp [List.drop_eq_nil_of_le hle]

set_option maxRecDepth 40000 in
/-- C1 counterexample: a run of migrate_context_cache on a file that contains
the logger import but none of the patterns computes a change count of 0 and
still writes the file (the write is unconditional once the guard passes), so
a zero change count does not suppress the write. -/
theorem c1_counterexample :
    migrateContextCache loggerImportStr = (loggerImportStr, true) ∧
    (ctxApply loggerImportStr).2 = 0 := by
  constructor <;> decide

/-- C1 amended: the fix-indentation driver does suppress the write on a zero
change count and its engine returns the input unchanged; the migrate drivers
write unconditionally once the logger-import guard passes, but on a run with
change count 0 the written content equals the original, so the file content
is still left untouched. -/
theorem c1_amended :
    (∀ lines : List (List Char), (fixLines lines).2 = 0 →
      (fixLines lines).1 = lines ∧ fixIndentMain lines = (lines, false)) ∧
    (∀ content : List Char, containsSub loggerImportStr content = true →
      (ctxApply content).2 = 0 → migrateContextCache content = (content, true)) := by
  constructor
  · intro lines h0
    have h1 : (fixLines lines).1 = lines := by
      have hz := fixFromF_fst_of_snd_zero lines lines.length 0 (by omega) h0
      simpa using hz
    refine ⟨h1, ?_⟩
    simp [fixIndentMain, h0]
  · intro content hg h0
    have h1 : (ctxApply content).1 = content := applyRules_fst_of_snd_zero content h0
    simp [migrateContextCache, hg, h1]

set_option maxRecDepth 40000 in
theorem c1_amended_witness :
    ((fixLines [("hello\n").data]).2 = 0 ∧
      (fixLines [("hello\n").data]).1 = [("hello\n").data] ∧
      fixIndentMain [("hello\n").data] = ([("hello\n").data], false)) ∧
    (containsSub loggerImportStr loggerImportStr = true ∧
      (ctxApply loggerImportStr).2 = 0 ∧
      migrateContextCache loggerImportStr = (loggerImportStr, true)) :=
  ⟨⟨by decide, (c1_amended.1 [("hello\n").data] (by decide)).1,
    (c1_amended.1 [("hello\n").data] (by decide)).2⟩,
   ⟨by decide, by decide, c1_amended.2 loggerImportStr (by decide) (by decide)⟩⟩

/-- C10: at every in-range index the loop of the indentation-repair script
advances by exactly 1 or exactly 3 (so the index strictly increases), and the
advance never jumps past the end of the input, so the indices consume every
line exactly once and the loop terminates at the length of the input. -/
theorem c10_termination (lines : List (List Char)) (i : Nat) (h : i < lines.length) :
    (fixAdvance lines i = 1 ∨ fixAdvance lines i = 3) ∧
    i + fixAdvance lines i ≤ lines.length := by
  constructor
  · unfold fixAdvance
    split
    · exact Or.inr rfl
    · exact Or.inl rfl
  · exact fixAdvance_le h

theorem c10_termination_witness :
    0 < ([("hello\n").data] : List (List Char)).length ∧
    ((fixAdvance [("hello\n").data] 0 = 1 ∨ fixAdvance [("hello\n").data] 0 = 3) ∧
      0 + fixAdvance [("hello\n").data] 0 ≤ ([("hello\n").data] : List (List Char)).length) :=
  ⟨by decide, c10_termination [("hello\n").data] 0 (by decide)⟩

theorem diffCount_nil_right (a : List (List Char)) : diffCount a [] = 0 := by
  simp [diffCount]

theorem diffCount_cons (a b : List Char) (as bs : List (List Char)) :
    diffCount (a :: as) (b :: bs) = (if a = b then 0 else 1) + diffCount as bs := by
  by_cases hab : a = b
  · simp [diffCount, List.filter_cons, hab]
  · simp only [diffCount, List.zip_cons_cons, List.filter_cons]
    simp [hab]
    omega

theorem noMetaAll_spec {lines : List (List Char)} (h : noMetaAll lines = true)
    (i : Nat) : metaFires lines i = false := by
  by_cases hi : i < lines.length
  · have hh := List.all_eq_true.mp h i (List.mem_range.mpr hi)
    simpa using hh
  · cases hm : metaFires lines i
    · rfl
    · have := metaFires_lt hm
      omega

theorem fixFromF_diff (lines : List (List Char)) (h : noMetaAll lines = true) :
    ∀ fuel i, lines.length - i ≤ fuel →
      (fixFromF lines fuel i).1.length = lines.length - i ∧
      diffCount (lines.drop i) (fixFromF lines fuel i).1 ≤ (fixFromF lines fuel i).2 := by
  intro fuel
  induction fuel with
  | zero =>
    intro i h1
    refine ⟨by simp [fixFromF]; omega, ?_⟩
    simp [fixFromF, diffCount_nil_right]
  | succ f ih =>
    intro i h1
    by_cases hi : i < lines.length
    · have hm := noMetaAll_spec h i
      have hadv : fixAdvance lines i = 1 := by simp [fixAdvance, hm]
      have hdrop : lines.drop i = lines.getD i [] :: lines.drop (i + 1) := by
        rw [List.getD_eq_getElem lines [] hi]
        exact List.drop_eq_getElem_cons hi
      obtain ⟨ihl, ihd⟩ := ih (i + 1) (by omega)
      have hstep :
          ∃ el d, fixEmit lines i = ([el], d) ∧
            (if lines.getD i [] = el then 0 else 1) ≤ d := by
        unfold fixEmit
        rw [if_neg (by simp [hm])]
        by_cases h2 : propMatches (lines.getD i []) = true
        · refine ⟨propEmit lines i, 1, by rw [if_pos h2], by split <;> omega⟩
        · by_cases h3 : braceShape (lines.getD i []) = true
          · refine ⟨braceEmit lines i, 1, by rw [if_neg h2, if_pos h3], by split <;> omega⟩
          · exact ⟨lines.getD i [], 0, by rw [if_neg h2, if_neg h3], by simp⟩
      obtain ⟨el, d, hemit, hd⟩ := hstep
      simp only [fixFromF, if_pos hi]
      rw [hemit, hadv, hdrop]
      simp only [List.singleton_append]
      rw [diffCount_cons]
      constructor
      · simp [ihl]
        omega
      · have := ihd
        simp only at this ⊢
        omega
    · simp only [fixFromF, if_neg hi]
      refine ⟨by simp; omega, ?_⟩
      have hle : lines.length ≤ i := by omega
      simp [List.drop_eq_nil_of_le hle, diffCount_nil_right, diffCount]

/-- C4 counterexample: on a single over-indented property line whose
indentation already equals the default target, the repair engine reports a
correction count of 1 although the emitted line is identical to the input, so
the count is not the number of output lines whose indentation differs. -/
theorem c4_counterexample :
    (fixLines [("                module: x\n").data]).2 = 1 ∧
    diffCount [("                module: x\n").data]
      (fixLines [("                module: x\n").data]).1 = 0 := by
  constructor <;> decide

/-- C4 amended: on inputs where the metadata branch never fires, the repair
engine preserves the number of lines and its correction count is an upper
bound on the number of output lines that differ from the corresponding input
line; the count can strictly exceed that number because a repair branch
counts a line even when the rewritten line equals the original. -/
theorem c4_amended (lines : List (List Char)) (h : noMetaAll lines = true) :
    (fixLines lines).1.length = lines.length ∧
    diffCount lines (fixLines lines).1 ≤ (fixLines lines).2 := by
  have hh := fixFromF_diff lines h lines.length 0 (by omega)
  simpa [fixLines, fixFrom] using hh

theorem c4_amended_witness :
    noMetaAll [("                module: x\n").data] = true ∧
    ((fixLines [("                module: x\n").data]).1.length =
        ([("                module: x\n").data] : List (List Char)).length ∧
      diffCount [("                module: x\n").data]
          (fixLines [("                module: x\n").data]).1 ≤
        (fixLines [("                module: x\n").data]).2) :=
  ⟨by decide, c4_amended [("                module: x\n").data] (by decide)⟩

theorem mem_dropWhile_of_neg {c : Char} {p : Char → Bool} :
    ∀ {l : List Char}, c ∈ l → p c = false → c ∈ l.dropWhile p := by
  intro l
  induction l with
  | nil => intro hc _; cases hc
  | cons x xs ih =>
    intro hc hp
    rw [List.dropWhile_cons]
    by_cases hx : p x = true
    · simp only [hx, if_true]
      rcases List.mem_cons.mp hc with rfl | hm
      · rw [hp] at hx; cases hx
      · exact ih hm hp
    · simp only [Bool.not_eq_true] at hx
      simp [hx]
      exact List.mem_cons.mp hc

theorem mem_pyStrip {c : Char} {l : List Char} (hc : c ∈ l) (hp : pyIsSpace c = false) :
    c ∈ pyStrip l := by
  unfold pyStrip pyStripEnd
  rw [List.mem_reverse]
  apply mem_dropWhile_of_neg _ hp
  rw [List.mem_reverse]
  exact mem_dropWhile_of_neg hc hp

theorem strip_brace_no_meta {l : List Char} (h : pyStrip l = bracePat) :
    containsSub metaMarker l = false := by
  cases hc : containsSub metaMarker l
  · rfl
  · exfalso
    obtain ⟨a, b, rfl⟩ := occ_iff_containsSub.mpr hc
    have hmm : 'm' ∈ metaMarker := by decide
    have hm : 'm' ∈ a ++ metaMarker ++ b :=
      List.mem_append.mpr (Or.inl (List.mem_append.mpr (Or.inr hmm)))
    have hm2 := mem_pyStrip hm (by decide)
    rw [h] at hm2
    have : ('m' : Char) ∈ bracePat := hm2
    simp [bracePat] at this

theorem strip_nonspace_mem {l : List Char} {c : Char} (h : pyStrip l = bracePat)
    (hc : c ∈ l) (hp : pyIsSpace c = false) : c = braceClose := by
  have hm := mem_pyStrip hc hp
  rw [h] at hm
  rcases List.mem_singleton.mp (by simpa [bracePat] using hm) with rfl
  rfl

theorem dropWhile_ws_eq_drop (l : List Char) :
    l.drop (wsTake l).length = l.dropWhile pyIsSpace := by
  have h2 : wsTake l ++ l.dropWhile pyIsSpace = l := by
    unfold wsTake
    exact List.takeWhile_append_dropWhile pyIsSpace l
  calc l.drop (wsTake l).length
      = (wsTake l ++ l.dropWhile pyIsSpace).drop (wsTake l).length := by rw [h2]
    _ = l.dropWhile pyIsSpace := List.drop_left _ _

theorem dropWhile_ws_strip_split (l : List Char) :
    ∃ w, l.dropWhile pyIsSpace = pyStrip l ++ w := by
  refine ⟨((l.dropWhile pyIsSpace).reverse.takeWhile pyIsSpace).reverse, ?_⟩
  unfold pyStrip pyStripEnd
  have h3 := List.takeWhile_append_dropWhile pyIsSpace (l.dropWhile pyIsSpace).reverse
  calc l.dropWhile pyIsSpace
      = (l.dropWhile pyIsSpace).reverse.reverse := (List.reverse_reverse _).symm
    _ = ((l.dropWhile pyIsSpace).reverse.takeWhile pyIsSpace ++
          (l.dropWhile pyIsSpace).reverse.dropWhile pyIsSpace).reverse := by rw [h3]
    _ = ((l.dropWhile pyIsSpace).reverse.dropWhile pyIsSpace).reverse ++
          ((l.dropWhile pyIsSpace).reverse.takeWhile pyIsSpace).reverse := by
        rw [List.reverse_append]

theorem propWords_head_ne_brace :
    propWords.all (fun w => decide (w.headD braceClose ≠ braceClose)) = true := by
  decide

theorem strip_brace_no_prop {l : List Char} (h : pyStrip l = bracePat) :
    propMatches l = false := by
  cases hp : propMatches l
  · rfl
  · exfalso
    simp only [propMatches, Bool.and_eq_true, List.any_eq_true] at hp
    obtain ⟨_, w, hw, hpre⟩ := hp
    rw [dropWhile_ws_eq_drop] at hpre
    obtain ⟨ws', hws⟩ := dropWhile_ws_strip_split l
    rw [hws, h] at hpre
    have hpre2 : w ++ [':'] <+: braceClose :: ws' :=
      List.isPrefixOf_iff_prefix.mp hpre
    cases hwc : w with
    | nil =>
      rw [hwc] at hpre2
      obtain ⟨hc, _⟩ := List.cons_prefix_cons.mp hpre2
      exact absurd hc (by decide)
    | cons w0 w' =>
      rw [hwc] at hpre2
      obtain ⟨hc, _⟩ := List.cons_prefix_cons.mp (by simpa using hpre2)
      have hall := List.all_eq_true.mp propWords_head_ne_brace w hw
      rw [hwc] at hall
      simp at hall
      exact hall (by simpa using hc)

theorem findBack_none {f : List Char → Bool} {lines : List (List Char)} :
    ∀ i, (∀ j, j < i → f (lines.getD j []) = false) → findBack f lines i = none := by
  intro i
  induction i with
  | zero => intro _; rfl
  | succ j ih =>
    intro h
    simp only [findBack]
    rw [h j (Nat.lt_succ_self j)]
    simp only [Bool.false_eq_true, if_false]
    exact ih fun k hk => h k (by omega)

/-- C6: when a candidate line matches a defective shape and no anchor line
precedes it anywhere in the input, the repair applies the hard-coded default
indentation of six spaces instead of failing: the closing-brace branch, whose
anchor is a line containing the metadata marker, emits the default-indented
brace line, and the metadata branch, whose anchor is a logger line, formats
its block with the default base indentation; the run continues normally in
both cases. -/
theorem c6_fallback_default :
    (∀ (lines : List (List Char)) (i : Nat), i < lines.length →
      pyStrip (lines.getD i []) = bracePat →
      (sp14.isPrefixOf (lines.getD i []) || sp8Brace.isPrefixOf (lines.getD i [])) = true →
      (∀ j, j < i → containsSub metaMarker (lines.getD j []) = false) →
      metaBase lines i = sp6 ∧
      fixFrom lines i =
        ((sp6 ++ ("        \x7d\n").data) :: (fixFrom lines (i + 1)).1,
         (fixFrom lines (i + 1)).2 + 1)) ∧
    (∀ (lines : List (List Char)) (i : Nat), metaFires lines i = true →
      (∀ j, j < i →
        (containsSub fLogMarker (lines.getD j []) ||
          containsSub logMarker (lines.getD j [])) = false) →
      loggerBase lines i = sp6 ∧
      fixFrom lines i =
        (metaEmit lines i ++ (fixFrom lines (i + 3)).1,
         (fixFrom lines (i + 3)).2 + 1)) := by
  constructor
  · intro lines i hi hstrip hpre14 hanchor
    have hnometa : containsSub metaMarker (lines.getD i []) = false :=
      strip_brace_no_meta hstrip
    have hcond : metaCondAt lines i = false := by
      unfold metaCondAt
      rw [hnometa]
      simp
    have hmf : metaFires lines i = false := by
      unfold metaFires
      rw [hcond]
      simp
    have hprop : propMatches (lines.getD i []) = false := strip_brace_no_prop hstrip
    have hbs : braceShape (lines.getD i []) = true := by
      unfold braceShape
      rw [hstrip, hpre14]
      simp
    have hbase : metaBase lines i = sp6 := by
      unfold metaBase
      rw [findBack_none i hanchor]
    refine ⟨hbase, ?_⟩
    rw [fixFrom_step hi]
    have hadv : fixAdvance lines i = 1 := by simp [fixAdvance, hmf]
    have hemit : fixEmit lines i = ([braceEmit lines i], 1) := by
      unfold fixEmit
      rw [if_neg (by rw [hmf]; simp), if_neg (by rw [hprop]; simp), if_pos hbs]
    rw [hemit, hadv]
    simp [braceEmit, hbase, Nat.add_comm]
  · intro lines i hmf hanchor
    have hbase : loggerBase lines i = sp6 := by
      unfold loggerBase
      rw [findBack_none i hanchor]
    have hi : i < lines.length := by
      have := metaFires_lt hmf
      omega
    refine ⟨hbase, ?_⟩
    rw [fixFrom_step hi]
    have hadv : fixAdvance lines i = 3 := by simp [fixAdvance, hmf]
    have hemit : fixEmit lines i = (metaEmit lines i, 1) := by
      unfold fixEmit
      rw [if_pos hmf]
    rw [hemit, hadv]
    simp [Nat.add_comm]

theorem c6_fallback_default_witness :
    (0 < ([("              \x7d\n").data] : List (List Char)).length ∧
      metaBase [("              \x7d\n").data] 0 = sp6 ∧
      fixFrom [("              \x7d\n").data] 0 =
        ((sp6 ++ ("        \x7d\n").data) ::
            (fixFrom [("              \x7d\n").data] 1).1,
         (fixFrom [("              \x7d\n").data] 1).2 + 1)) ∧
    (metaFires [("logger.info(\x27m\x27, \x7b metadata: \x7b a \x7d\n").data,
        ("        \x7d\n").data, ("      );\n").data, ("end\n").data] 0 = true ∧
      loggerBase [("logger.info(\x27m\x27, \x7b metadata: \x7b a \x7d\n").data,
        ("        \x7d\n").data, ("      );\n").data, ("end\n").data] 0 = sp6) := by
  have hb := c6_fallback_default.1 [("              \x7d\n").data] 0 (by decide)
    (by decide) (by decide) (fun j hj => absurd hj (Nat.not_lt_zero j))
  have hc := c6_fallback_default.2 [("logger.info(\x27m\x27, \x7b metadata: \x7b a \x7d\n").data,
      ("        \x7d\n").data, ("      );\n").data, ("end\n").data] 0 (by decide)
    (fun j hj => absurd hj (Nat.not_lt_zero j))
  exact ⟨⟨by decide, hb.1, hb.2⟩, ⟨by decide, hc.1⟩⟩

theorem shapeAt_parts {lines : List (List Char)} {k : Nat}
    (hs : shapeAt lines k = false) :
    metaFires lines k = false ∧
    (1 ≤ k → metaFires lines (k - 1) = false) ∧
    (2 ≤ k → metaFires lines (k - 2) = false) ∧
    propMatches (lines.getD k []) = false ∧
    braceShape (lines.getD k []) = false := by
  unfold shapeAt at hs
  simp only [Bool.or_eq_false_iff] at hs
  obtain ⟨⟨⟨⟨hA, hB⟩, hC⟩, hD⟩, hE⟩ := hs
  refine ⟨hA, ?_, ?_, hD, hE⟩
  · intro h1
    rcases Bool.and_eq_false_iff.mp hB with h | h
    · rw [decide_eq_false_iff_not] at h
      omega
    · exact h
  · intro h2
    rcases Bool.and_eq_false_iff.mp hC with h | h
    · rw [decide_eq_false_iff_not] at h
      omega
    · exact h

theorem fixFromF_mem (lines : List (List Char)) (k : Nat) (hk : k < lines.length)
    (hs : shapeAt lines k = false) :
    ∀ fuel i, lines.length - i ≤ fuel → i ≤ k →
      lines.getD k [] ∈ (fixFromF lines fuel i).1 := by
  obtain ⟨hA, hB, hC, hD, hE⟩ := shapeAt_parts hs
  intro fuel
  induction fuel with
  | zero =>
    intro i h1 h2
    exfalso
    omega
  | succ f ih =>
    intro i h1 h2
    have hi : i < lines.length := by omega
    simp only [fixFromF, if_pos hi]
    by_cases hik : i = k
    · subst hik
      have hemit : fixEmit lines i = ([lines.getD i []], 0) := by
        unfold fixEmit
        rw [if_neg (by rw [hA]; simp), if_neg (by rw [hD]; simp),
          if_neg (by rw [hE]; simp)]
      rw [hemit]
      exact List.mem_append.mpr (Or.inl (List.mem_singleton.mpr rfl))
    · have hlt : i < k := by omega
      by_cases hm : metaFires lines i = true
      · have hadv : fixAdvance lines i = 3 := by simp [fixAdvance, hm]
        have hik3 : i + 3 ≤ k := by
          by_contra hcon
          have hior : i + 1 = k ∨ i + 2 = k := by omega
          rcases hior with h | h
          · have hmk : metaFires lines (k - 1) = true := by
              rw [show k - 1 = i by omega]
              exact hm
            rw [hB (by omega)] at hmk
            exact Bool.false_ne_true hmk
          · have hmk : metaFires lines (k - 2) = true := by
              rw [show k - 2 = i by omega]
              exact hm
            rw [hC (by omega)] at hmk
            exact Bool.false_ne_true hmk
        rw [hadv]
        exact List.mem_append.mpr (Or.inr (ih (i + 3) (by omega) hik3))
      · have hadv : fixAdvance lines i = 1 := by simp [fixAdvance, hm]
        rw [hadv]
        exact List.mem_append.mpr (Or.inr (ih (i + 1) (by omega) (by omega)))

/-- C7: every input line at a position that is part of no repaired shape:
no metadata-block window fires at it or at either of the two positions
before it, and the line matches neither the over-indented property shape nor
the over-indented closing-brace shape, appears unchanged in the output of the
repair engine. -/
theorem c7_passthrough (lines : List (List Char)) (k : Nat)
    (hk : k < lines.length) (hs : shapeAt lines k = false) :
    lines.getD k [] ∈ (fixLines lines).1 := by
  have hh := fixFromF_mem lines k hk hs lines.length 0 (by omega) (by omega)
  simpa [fixLines, fixFrom] using hh

theorem c7_passthrough_witness :
    0 < ([("hello\n").data] : List (List Char)).length ∧
    shapeAt [("hello\n").data] 0 = false ∧
    ([("hello\n").data] : List (List Char)).getD 0 [] ∈
      (fixLines [("hello\n").data]).1 :=
  ⟨by decide, by decide, c7_passthrough [("hello\n").data] 0 (by decide) (by decide)⟩
